import Mathlib

/-!
# todo-app-rest-api: the authorization pipeline and the item handlers

A shallow embedding of `pkg/todo.go`, `pkg/handler/response.go`,
`pkg/handler/middleware.go`, `pkg/handler/item.go` and `pkg/handler/auth.go`.
The token service, whose implementation is not among the sources, is
modelled from the specification.

* Go values of type `error` are the inductive `todo.Error`; a nil error is
  `none` (or the `.ok` side of an `Except`).
* The service interfaces (`Authorization`, `TodoItem`) are records of
  functions, as they are interfaces in the source; every invocation of a
  service method is appended to `Context.calls`.
* The parts of `gin.Context` the handlers touch (request header, path
  parameters, body, the key/value store, the abort flag, the response
  writer) are fields of `gin.Context`; a handler is a function
  `gin.Context → gin.Context`.
* An index into a slice that is out of range sets `Context.panicked`.
-/

set_option autoImplicit false
set_option linter.dupNamespace false

/-! ## Library functions used by the handlers -/

namespace strings

/-- Pieces of `s` between consecutive occurrences of `sep`: `n` occurrences
give `n + 1` pieces, and the empty input gives one empty piece. -/
def splitChars (sep : Char) : List Char → List (List Char)
  | [] => [[]]
  | c :: cs =>
    if c = sep then [] :: splitChars sep cs
    else
      match splitChars sep cs with
      | [] => [[c]]
      | p :: ps => (c :: p) :: ps

/-- Go `strings.Split(s, sep)` for a one-character separator, the only
form the source uses (`strings.Split(header, " ")`). -/
def Split (s : String) (sep : Char) : List String :=
  (splitChars sep s.data).map String.mk

end strings

namespace strconv

/-- Value of a run of decimal digits, `none` when a character is not a digit. -/
def digits : List Char → Nat → Option Nat
  | [], acc => some acc
  | c :: cs, acc =>
    if c.isDigit then digits cs (acc * 10 + (c.toNat - 48)) else none

/-- Go `strconv.Atoi` on a 64-bit platform: an optional sign, then at least
one decimal digit, and the value must fit in an `int`; `none` stands for a
non-nil error. -/
def Atoi (s : String) : Option Int :=
  let signed : Bool × List Char :=
    match s.data with
    | '-' :: r => (true, r)
    | '+' :: r => (false, r)
    | r => (false, r)
  match signed.2 with
  | [] => none
  | d :: ds =>
    match digits (d :: ds) 0 with
    | none => none
    | some n =>
      let v : Int := if signed.1 then -(n : Int) else (n : Int)
      if -(2 : Int) ^ 63 ≤ v ∧ v ≤ (2 : Int) ^ 63 - 1 then some v else none

end strconv

namespace http

abbrev StatusOK : Nat := 200
abbrev StatusBadRequest : Nat := 400
abbrev StatusUnauthorized : Nat := 401
abbrev StatusInternalServerError : Nat := 500

end http

/-! ## pkg/todo.go, pkg/user.go -/

namespace todo

structure TodoItem where
  Id : Int
  Title : String
  Description : String
  Done : Bool
  deriving DecidableEq, Repr

structure UpdateListInput where
  Title : Option String
  Description : Option String
  deriving DecidableEq, Repr

structure UpdateItemInput where
  Title : Option String
  Description : Option String
  Done : Option Bool
  deriving DecidableEq, Repr

/-- Dynamic types a non-nil Go `error` can have here: the error structs of
package `todo`, and `errorString` for every other error (`errors.New`). -/
inductive Error where
  | ErrNoSuchList
  | ErrNoSuchItem
  | ErrInvalidUpdateListInput
  | ErrInvalidUpdateItemInput
  | ErrInvalidCredentials
  | errorString (s : String)
  deriving DecidableEq, Repr

/-- The `Error()` method of each error type. -/
def Error.Error : Error → String
  | .ErrNoSuchList => "No list with such id"
  | .ErrNoSuchItem => "No item with such id"
  | .ErrInvalidUpdateListInput => "Invalid list update input"
  | .ErrInvalidUpdateItemInput => "Invalid item update input"
  | .ErrInvalidCredentials => "Invalid credentials"
  | .errorString s => s

def UpdateListInput.Validate (i : UpdateListInput) : Option Error :=
  if i.Title = none ∧ i.Description = none then
    some Error.ErrInvalidUpdateListInput
  else none

def UpdateItemInput.Validate (i : UpdateItemInput) : Option Error :=
  if i.Title = none ∧ i.Description = none ∧ i.Done = none then
    some Error.ErrInvalidUpdateItemInput
  else none

end todo

/-! ## Service interfaces -/

namespace service

/-- Interface `Authorization`, as the handlers and their tests use it. -/
structure Authorization where
  GenerateToken : String → String → Except todo.Error String
  ParseToken : String → Except todo.Error Int

/-- Interface `TodoItem`. `GetAll` returns a slice: `none` is the nil slice. -/
structure TodoItem where
  Create : Int → Int → todo.TodoItem → Except todo.Error Int
  GetAll : Int → Int → Except todo.Error (Option (List todo.TodoItem))
  GetById : Int → Int → Except todo.Error todo.TodoItem
  Update : Int → Int → todo.UpdateItemInput → Option todo.Error
  Delete : Int → Int → Option todo.Error

structure Service where
  Authorization : Authorization
  TodoItem : TodoItem

/-- One invocation of a service method, with its arguments. -/
inductive Call where
  | ParseToken (token : String)
  | Create (userId listId : Int) (input : todo.TodoItem)
  | GetAll (userId listId : Int)
  | GetById (userId itemId : Int)
  | Update (userId itemId : Int) (input : todo.UpdateItemInput)
  | Delete (userId itemId : Int)
  | GenerateToken (username password : String)
  deriving DecidableEq, Repr

end service

/-! ## The request context -/

namespace gin

/-- Values stored under a key of the context (`any` in the source). -/
inductive Any where
  | int (n : Int)
  | string (s : String)
  | bool (b : Bool)
  deriving DecidableEq, Repr

/-- JSON documents the handlers render. -/
inductive Body where
  | errorResponse (Message : String)
  | statusResponse (Status : String)
  | id (id : Int)
  | item (item : todo.TodoItem)
  | getAllItemsResponse (Data : Option (List todo.TodoItem))
  | token (token : String)
  deriving DecidableEq, Repr

structure Request where
  Header : List (String × List String)
  Body : String
  deriving DecidableEq, Repr

structure ResponseWriter where
  status : Nat
  written : Bool
  body : List Body
  deriving DecidableEq, Repr

structure Context where
  Request : Request
  Params : List (String × String)
  Keys : List (String × Any)
  aborted : Bool
  Writer : ResponseWriter
  calls : List service.Call
  log : List String
  panicked : Bool
  deriving DecidableEq, Repr

/-- Writer of a request that has not been answered: default status 200. -/
def ResponseWriter.fresh : ResponseWriter :=
  { status := 200, written := false, body := [] }

def ResponseWriter.WriteHeader (w : ResponseWriter) (code : Nat) : ResponseWriter :=
  if 0 < code ∧ w.status ≠ code then
    if w.written then w else { w with status := code }
  else w

def ResponseWriter.WriteHeaderNow (w : ResponseWriter) : ResponseWriter :=
  { w with written := true }

def ResponseWriter.Write (w : ResponseWriter) (data : Body) : ResponseWriter :=
  { w.WriteHeaderNow with body := w.body ++ [data] }

/-- Context the engine hands to the first handler of a request. -/
def Context.new (r : gin.Request) (params : List (String × String)) : Context :=
  { Request := r, Params := params, Keys := [], aborted := false,
    Writer := ResponseWriter.fresh, calls := [], log := [], panicked := false }

/-- First value of the request header `key`, the empty string when absent. -/
def Context.GetHeader (c : Context) (key : String) : String :=
  match c.Request.Header.lookup key with
  | some (v :: _) => v
  | _ => ""

/-- Value of the path parameter `key`, the empty string when absent. -/
def Context.Param (c : Context) (key : String) : String :=
  match c.Params.lookup key with
  | some v => v
  | none => ""

def Context.Set (c : Context) (key : String) (value : Any) : Context :=
  { c with Keys := (key, value) :: c.Keys.filter (fun kv => kv.1 ≠ key) }

def Context.Get (c : Context) (key : String) : Option Any :=
  c.Keys.lookup key

def Context.Abort (c : Context) : Context :=
  { c with aborted := true }

def Context.IsAborted (c : Context) : Bool :=
  c.aborted

def bodyAllowedForStatus (status : Nat) : Bool :=
  if 100 ≤ status ∧ status ≤ 199 then false
  else if status = 204 then false
  else if status = 304 then false
  else true

def Context.JSON (c : Context) (code : Nat) (obj : Body) : Context :=
  let w := c.Writer.WriteHeader code
  if bodyAllowedForStatus code then { c with Writer := w.Write obj }
  else { c with Writer := w.WriteHeaderNow }

def Context.AbortWithStatusJSON (c : Context) (code : Nat) (obj : Body) : Context :=
  c.Abort.JSON code obj

def Context.AbortWithStatus (c : Context) (code : Nat) : Context :=
  { c with Writer := (c.Writer.WriteHeader code).WriteHeaderNow, aborted := true }

/-- Method `BindJSON`: decodes the request body with `decode`; a failure
aborts the request with status 400 and is returned to the caller. -/
def Context.BindJSON {α : Type} (c : Context) (decode : String → Except todo.Error α) :
    Context × Except todo.Error α :=
  match decode c.Request.Body with
  | .error err => (c.AbortWithStatus 400, .error err)
  | .ok v => (c, .ok v)

/-- Appends a service invocation to the record of calls. -/
def Context.call (c : Context) (k : service.Call) : Context :=
  { c with calls := c.calls ++ [k] }

/-- Outcome of a run-time panic (index out of range). -/
def Context.panic (c : Context) : Context :=
  { c with panicked := true }

abbrev HandlerFunc := Context → Context

/-- Runs a chain of handlers the way the engine does: each handler in
turn, stopping as soon as the request is aborted. The second component
lists the contexts on which a handler of the chain was invoked. -/
def runChain : List HandlerFunc → Context → Context × List Context
  | [], c => (c, [])
  | f :: fs, c =>
    if c.IsAborted then (c, [])
    else
      let r := runChain fs (f c)
      (r.1, c :: r.2)

end gin

/-! ## pkg/handler -/

namespace handler

open gin

/-- Decoders `BindJSON` applies to the request body, one per target type
(JSON decoding followed by the `binding` tag validation). -/
structure Binding where
  TodoItem : String → Except todo.Error todo.TodoItem
  UpdateItemInput : String → Except todo.Error todo.UpdateItemInput

structure Handler where
  services : service.Service

def authHeader : String := "Authorization"
def userCtx : String := "userId"

/-- response.go: logs the message, then aborts with the JSON error body. -/
def newErrorResponse (c : Context) (statusCode : Nat) (message : String) : Context :=
  let c := { c with log := c.log ++ ["Error: " ++ message] }
  c.AbortWithStatusJSON statusCode (Body.errorResponse message)

/-- middleware.go: `userIdentity`. -/
def userIdentity (h : Handler) (c : Context) : Context :=
  let header := c.GetHeader authHeader
  if header = "" then
    newErrorResponse c http.StatusUnauthorized "Empty auth header"
  else
    let headerParts := strings.Split header ' '
    if headerParts.length ≠ 2 then
      newErrorResponse c http.StatusUnauthorized "Invalid auth header"
    else
      match headerParts[0]? with
      | none => c.panic
      | some scheme =>
        if scheme ≠ "Bearer" then
          newErrorResponse c http.StatusUnauthorized "Invalid auth header"
        else
          match headerParts[1]? with
          | none => c.panic
          | some token =>
            if token = "" then
              newErrorResponse c http.StatusUnauthorized "Empty token"
            else
              let c := c.call (service.Call.ParseToken token)
              match h.services.Authorization.ParseToken token with
              | .error err => newErrorResponse c http.StatusUnauthorized err.Error
              | .ok userId => c.Set userCtx (Any.int userId)

/-- middleware.go: `getUserId`; returns the context too, as the function
writes the error response itself. -/
def getUserId (c : Context) : Context × Except todo.Error Int :=
  match c.Get userCtx with
  | none =>
    (newErrorResponse c http.StatusInternalServerError "User id not found",
      .error (todo.Error.errorString "User id not found"))
  | some (Any.int idInt) => (c, .ok idInt)
  | some _ =>
    (newErrorResponse c http.StatusInternalServerError "Invalid user id type",
      .error (todo.Error.errorString "Invalid user id type"))

/-- item.go: `createItem`. -/
def createItem (h : Handler) (b : Binding) (c : Context) : Context :=
  match getUserId c with
  | (c, .error _) => c
  | (c, .ok userId) =>
    match strconv.Atoi (c.Param "id") with
    | none => newErrorResponse c http.StatusBadRequest "Invalid list id"
    | some listId =>
      match c.BindJSON b.TodoItem with
      | (c, .error _) => newErrorResponse c http.StatusBadRequest "Invalid request body"
      | (c, .ok input) =>
        let c := c.call (service.Call.Create userId listId input)
        match h.services.TodoItem.Create userId listId input with
        | .error err =>
          let status :=
            match err with
            | .ErrNoSuchList => http.StatusOK
            | _ => http.StatusInternalServerError
          newErrorResponse c status err.Error
        | .ok id => c.JSON http.StatusOK (Body.id id)

/-- item.go: `getAllItems`. -/
def getAllItems (h : Handler) (c : Context) : Context :=
  match getUserId c with
  | (c, .error _) => c
  | (c, .ok userId) =>
    match strconv.Atoi (c.Param "id") with
    | none => newErrorResponse c http.StatusBadRequest "Invalid list id"
    | some listId =>
      let c := c.call (service.Call.GetAll userId listId)
      match h.services.TodoItem.GetAll userId listId with
      | .error err =>
        let status :=
          match err with
          | .ErrNoSuchList => http.StatusOK
          | _ => http.StatusInternalServerError
        newErrorResponse c status err.Error
      | .ok items => c.JSON http.StatusOK (Body.getAllItemsResponse items)

/-- item.go: `getItemById`. -/
def getItemById (h : Handler) (c : Context) : Context :=
  match getUserId c with
  | (c, .error _) => c
  | (c, .ok userId) =>
    match strconv.Atoi (c.Param "id") with
    | none => newErrorResponse c http.StatusBadRequest "Invalid item id"
    | some itemId =>
      let c := c.call (service.Call.GetById userId itemId)
      match h.services.TodoItem.GetById userId itemId with
      | .error err =>
        let status :=
          match err with
          | .ErrNoSuchItem => http.StatusOK
          | _ => http.StatusInternalServerError
        newErrorResponse c status err.Error
      | .ok item => c.JSON http.StatusOK (Body.item item)

/-- item.go: `updateItem`. -/
def updateItem (h : Handler) (b : Binding) (c : Context) : Context :=
  match getUserId c with
  | (c, .error _) => c
  | (c, .ok userId) =>
    match strconv.Atoi (c.Param "id") with
    | none => newErrorResponse c http.StatusBadRequest "Invalid item id"
    | some id =>
      match c.BindJSON b.UpdateItemInput with
      | (c, .error err) => newErrorResponse c http.StatusBadRequest err.Error
      | (c, .ok input) =>
        let c := c.call (service.Call.Update userId id input)
        match h.services.TodoItem.Update userId id input with
        | some err =>
          let status :=
            match err with
            | .ErrNoSuchItem => http.StatusOK
            | .ErrInvalidUpdateItemInput => http.StatusBadRequest
            | _ => http.StatusInternalServerError
          newErrorResponse c status err.Error
        | none => c.JSON http.StatusOK (Body.statusResponse "ok")

/-- item.go: `deleteItem`. -/
def deleteItem (h : Handler) (c : Context) : Context :=
  match getUserId c with
  | (c, .error _) => c
  | (c, .ok userId) =>
    match strconv.Atoi (c.Param "id") with
    | none => newErrorResponse c http.StatusBadRequest "Invalid item id"
    | some itemId =>
      let c := c.call (service.Call.Delete userId itemId)
      match h.services.TodoItem.Delete userId itemId with
      | some err => newErrorResponse c http.StatusInternalServerError err.Error
      | none => c.JSON http.StatusOK (Body.statusResponse "ok")

end handler

/-! ## Fixtures of the handler tests -/

namespace handler

open gin

/-- Mock of `Authorization` in `TestHandler_userIdentity`: the token
`token` belongs to user 1, every other token is refused. -/
def mockAuthorization : service.Authorization :=
  { GenerateToken := fun _ _ => .ok "token",
    ParseToken := fun t =>
      if t = "token" then .ok 1 else .error (todo.Error.errorString "Invalid token") }

/-- Mock of `TodoItem` in the item tests: id 10 names no list and no item
of the caller, and an update that names no field is refused. -/
def mockTodoItem : service.TodoItem :=
  { Create := fun _ listId _ =>
      if listId = 10 then .error todo.Error.ErrNoSuchList else .ok 1,
    GetAll := fun _ listId =>
      if listId = 10 then .error todo.Error.ErrNoSuchList else .ok (some []),
    GetById := fun _ itemId =>
      if itemId = 10 then .error todo.Error.ErrNoSuchItem
      else .ok { Id := 1, Title := "Test", Description := "Description", Done := true },
    Update := fun _ itemId input =>
      if itemId = 10 then some todo.Error.ErrNoSuchItem else input.Validate,
    Delete := fun _ _ => none }

def mockHandler : Handler :=
  { services := { Authorization := mockAuthorization, TodoItem := mockTodoItem } }

/-- Decoders that know the request bodies of the item tests. -/
def mockBinding : Binding :=
  { TodoItem := fun body =>
      if body = "\x7b\"title\":\"Test\",\"description\":\"Description\"\x7d" then
        .ok { Id := 0, Title := "Test", Description := "Description", Done := false }
      else if body = "\x7b\"title\":\"Other\"\x7d" then
        .ok { Id := 0, Title := "Other", Description := "", Done := false }
      else .error (todo.Error.errorString "invalid request"),
    UpdateItemInput := fun body =>
      if body = "\x7b\"title\":\"Test\"\x7d" then
        .ok { Title := some "Test", Description := none, Done := none }
      else if body = "\x7b\x7d" then
        .ok { Title := none, Description := none, Done := none }
      else .error (todo.Error.errorString "invalid request") }

/-- Request with the given `Authorization` header and body. -/
def mockRequest (authorization body : String) : Request :=
  { Header := [(authHeader, [authorization])], Body := body }

/-- Context of the item tests: a first handler has stored `userId`. -/
def mockContext (userId : Int) (id body : String) : Context :=
  (Context.new { Header := [], Body := body } [("id", id)]).Set userCtx (Any.int userId)

end handler

/-! ## pkg/handler/auth.go and the struct validation of `BindJSON` -/

namespace handler

open gin

structure signInInput where
  Username : String
  Password : String
  deriving DecidableEq, Repr

/-- auth.go: `signIn`; `bind` is the decoder `BindJSON` applies for `signInInput`. -/
def signIn (h : Handler) (bind : String → Except todo.Error signInInput) (c : Context) :
    Context :=
  match c.BindJSON bind with
  | (c, .error _) => newErrorResponse c http.StatusBadRequest "Invalid request body"
  | (c, .ok input) =>
    let c := c.call (service.Call.GenerateToken input.Username input.Password)
    match h.services.Authorization.GenerateToken input.Username input.Password with
    | .error err =>
      match err with
      | .ErrInvalidCredentials => newErrorResponse c http.StatusOK err.Error
      | _ => newErrorResponse c http.StatusInternalServerError err.Error
    | .ok token => c.JSON http.StatusOK (Body.token token)

/-- Struct validation of a decoded `todo.TodoItem`: the tag
`binding:"required"` on `Title` refuses the zero value of the field, the
empty string (which is also what decoding leaves when the body has no
title). No other field of `TodoItem` carries a `binding` tag. -/
def validateTodoItem (i : todo.TodoItem) : Option todo.Error :=
  if i.Title = "" then
    some (todo.Error.errorString "Field validation for Title failed on the required tag")
  else none

/-- The binders of `BindJSON`: JSON decoding of the body into the target
type, then struct validation by the `binding` tags of todo.go.
`UpdateItemInput` carries no `binding` tag, so its validation accepts every
decoded value. -/
def Binding.JSON (decodeTodoItem : String → Except todo.Error todo.TodoItem)
    (decodeUpdateItemInput : String → Except todo.Error todo.UpdateItemInput) : Binding :=
  { TodoItem := fun body =>
      match decodeTodoItem body with
      | .error err => .error err
      | .ok input =>
        match validateTodoItem input with
        | some err => .error err
        | none => .ok input,
    UpdateItemInput := decodeUpdateItemInput }

end handler

/-! ## Token service -/

namespace service

/-- Modelled from the spec: a record of the Credential Store
(`pkg/service/auth.go` and `pkg/repository` are not among the sources): the
numeric id, the unique username and the salted password hash. -/
structure StoredUser where
  id : Int
  username : String
  passwordHash : String
  deriving DecidableEq, Repr

/-- Modelled from the spec: the signed, stateless credential encoding
`user_id`, `issued_at`, `expires_at`, with its signature. -/
structure Token where
  user_id : Int
  issued_at : Nat
  expires_at : Nat
  signature : String
  deriving DecidableEq, Repr

/-- Modelled from the spec: the error taxonomy of the Token Service. A
value of type `Token` always has the token structure, so `MalformedToken`
is not produced by `VerifyToken` below. -/
inductive TokenError where
  | InvalidCredentials
  | MalformedToken
  | ExpiredToken
  | InvalidSignature
  deriving DecidableEq, Repr

/-- Modelled from the spec: the process-wide configuration of the Token
Service: the symmetric signing secret, the password-hashing salt, the fixed
validity duration, the salted hash (salt, password) and the signature
(secret, user id, issued at, expires at). -/
structure TokenConfig where
  secret : String
  salt : String
  duration : Nat
  hash : String → String → String
  sign : String → Int → Nat → Nat → String

/-- Modelled from the spec: `FindUserByUsername` of the user repository. -/
def FindUserByUsername (store : List StoredUser) (username : String) : Option StoredUser :=
  store.find? (fun u => u.username = username)

/-- Modelled from the spec: `IssueToken` looks up the user by username,
fails with `InvalidCredentials` if absent or if the password hash does not
match, and otherwise produces a signed token embedding the user id and an
expiry a fixed duration from issuance (`now`). -/
def IssueToken (cfg : TokenConfig) (store : List StoredUser) (now : Nat)
    (username password : String) : Except TokenError Token :=
  match FindUserByUsername store username with
  | none => .error TokenError.InvalidCredentials
  | some u =>
    if u.passwordHash = cfg.hash cfg.salt password then
      .ok { user_id := u.id, issued_at := now, expires_at := now + cfg.duration,
            signature := cfg.sign cfg.secret u.id now (now + cfg.duration) }
    else .error TokenError.InvalidCredentials

/-- Modelled from the spec: `VerifyToken` fails with `InvalidSignature` if
the signature is not the one of the embedded fields under the secret, with
`ExpiredToken` if the expiry has passed at `now`, and otherwise returns the
embedded user id; a function of token, secret and current time only. -/
def VerifyToken (cfg : TokenConfig) (now : Nat) (token : Token) : Except TokenError Int :=
  if token.signature ≠ cfg.sign cfg.secret token.user_id token.issued_at token.expires_at then
    .error TokenError.InvalidSignature
  else if token.expires_at < now then .error TokenError.ExpiredToken
  else .ok token.user_id

end service

/-! ## Fixtures of the auth tests -/

namespace handler

/-- Decoder of the sign-in bodies of `TestHandler_signIn`. -/
def mockSignInBinding (body : String) : Except todo.Error signInInput :=
  if body = "\x7b\"username\":\"test\",\"password\":\"qwerty\"\x7d" then
    .ok { Username := "test", Password := "qwerty" }
  else if body = "\x7b\"username\":\"test\",\"password\":\"ytrewq\"\x7d" then
    .ok { Username := "test", Password := "ytrewq" }
  else .error (todo.Error.errorString "invalid request")

/-- Mock of `Authorization` in `TestHandler_signIn`: user `test` with
password `qwerty`; the username `fail` makes the service fail. -/
def mockSignInHandler : Handler :=
  { services :=
    { Authorization :=
      { GenerateToken := fun username password =>
          if username = "fail" then .error (todo.Error.errorString "Service failure")
          else if username = "test" ∧ password = "qwerty" then .ok "token"
          else .error todo.Error.ErrInvalidCredentials,
        ParseToken := fun _ => .error (todo.Error.errorString "Invalid token") },
      TodoItem := mockTodoItem } }

/-- JSON decoders for the item bodies of the tests: the bodies of
`mockBinding`, and bodies whose title is empty or missing. -/
def mockDecodeTodoItem (body : String) : Except todo.Error todo.TodoItem :=
  if body = "\x7b\"title\":\"Test\",\"description\":\"Description\"\x7d" then
    .ok { Id := 0, Title := "Test", Description := "Description", Done := false }
  else if body = "\x7b\"title\":\"\"\x7d" then
    .ok { Id := 0, Title := "", Description := "", Done := false }
  else if body = "\x7b\"description\":\"Description\"\x7d" then
    .ok { Id := 0, Title := "", Description := "Description", Done := false }
  else .error (todo.Error.errorString "invalid request")

/-- Mock of `TodoItem` whose every method fails with `Service failure`. -/
def failingTodoItem : service.TodoItem :=
  { Create := fun _ _ _ => .error (todo.Error.errorString "Service failure"),
    GetAll := fun _ _ => .error (todo.Error.errorString "Service failure"),
    GetById := fun _ _ => .error (todo.Error.errorString "Service failure"),
    Update := fun _ _ _ => some (todo.Error.errorString "Service failure"),
    Delete := fun _ _ => some (todo.Error.errorString "Service failure") }

def failingHandler : Handler :=
  { services := { Authorization := mockAuthorization, TodoItem := failingTodoItem } }

end handler

namespace service

/-- Configuration of the scenario of the spec: validity of 12 hours. -/
def mockTokenConfig : TokenConfig :=
  { secret := "secret", salt := "salt", duration := 43200,
    hash := fun salt password => salt ++ password,
    sign := fun secret userId iat exp =>
      secret ++ toString userId ++ "." ++ toString iat ++ "." ++ toString exp }

/-- Store of the scenario of the spec: user `test` with password `qwerty`. -/
def mockStore : List StoredUser :=
  [{ id := 1, username := "test", passwordHash := "saltqwerty" }]

end service

namespace handler

/-- Decoders of update bodies: a body whose title is present and empty,
and the body `\x7b\x7d` that names no field. -/
def emptyTitleBinding : Binding :=
  { TodoItem := mockBinding.TodoItem,
    UpdateItemInput := fun body =>
      if body = "\x7b\"title\":\"\"\x7d" then
        .ok { Title := some "", Description := none, Done := none }
      else if body = "\x7b\x7d" then
        .ok { Title := none, Description := none, Done := none }
      else .error (todo.Error.errorString "invalid request") }

end handler

/-! ## Lemmas on the library functions -/

namespace strings

theorem splitChars_ne_nil (sep : Char) (s : List Char) : splitChars sep s ≠ [] := by
  cases s with
  | nil => simp [splitChars]
  | cons c cs =>
    by_cases hc : c = sep
    · simp [splitChars, hc]
    · cases hs : splitChars sep cs <;> simp [splitChars, hc, hs]

theorem splitChars_cons_sep (sep : Char) (cs : List Char) :
    splitChars sep (sep :: cs) = [] :: splitChars sep cs := by
  simp [splitChars]

theorem splitChars_cons_ne {sep c : Char} (hc : c ≠ sep) (cs : List Char) :
    ∃ p ps, splitChars sep cs = p :: ps ∧ splitChars sep (c :: cs) = (c :: p) :: ps := by
  cases hs : splitChars sep cs with
  | nil => exact absurd hs (splitChars_ne_nil sep cs)
  | cons p ps => exact ⟨p, ps, rfl, by simp [splitChars, hc, hs]⟩

/-- A split has exactly one piece when the separator does not occur. -/
theorem splitChars_eq_singleton (sep : Char) (s a : List Char) :
    splitChars sep s = [a] ↔ s = a ∧ sep ∉ a := by
  induction s generalizing a with
  | nil =>
    constructor
    · intro h
      have : a = [] := by simpa [splitChars] using h.symm
      subst this
      simp
    · rintro ⟨rfl, _⟩
      simp [splitChars]
  | cons c cs ih =>
    by_cases hc : c = sep
    · subst hc
      rw [splitChars_cons_sep]
      constructor
      · intro h
        have h2 : splitChars c cs = [] := by
          have := congrArg List.tail h
          simpa using this
        exact absurd h2 (splitChars_ne_nil c cs)
      · rintro ⟨rfl, hn⟩
        exact absurd (List.mem_cons_self _ _) hn
    · obtain ⟨p, ps, hp, hs⟩ := splitChars_cons_ne hc cs
      rw [hs]
      constructor
      · intro h
        have h1 : c :: p = a := by
          have := congrArg List.head? h
          simpa using this
        have h2 : ps = [] := by
          have := congrArg List.tail h
          simpa using this
        subst h1 h2
        obtain ⟨rfl, hn⟩ := (ih p).1 hp
        refine ⟨rfl, ?_⟩
        intro hm
        rcases List.mem_cons.1 hm with h3 | h3
        · exact hc h3.symm
        · exact hn h3
      · rintro ⟨rfl, hn⟩
        have hn2 : sep ∉ cs := fun hm => hn (List.mem_cons_of_mem _ hm)
        have := (ih cs).2 ⟨rfl, hn2⟩
        rw [hp] at this
        simp at this
        obtain ⟨rfl, rfl⟩ := this
        rfl

/-- A split has exactly two pieces when the separator occurs exactly once. -/
theorem splitChars_eq_pair (sep : Char) (s a b : List Char) :
    splitChars sep s = [a, b] ↔ s = a ++ sep :: b ∧ sep ∉ a ∧ sep ∉ b := by
  induction s generalizing a with
  | nil => simp [splitChars]
  | cons c cs ih =>
    by_cases hc : c = sep
    · subst hc
      rw [splitChars_cons_sep]
      constructor
      · intro h
        have h1 : a = [] := by
          have := congrArg List.head? h
          simpa using this.symm
        have h2 : splitChars c cs = [b] := by
          have := congrArg List.tail h
          simpa using this
        subst h1
        obtain ⟨rfl, hn⟩ := (splitChars_eq_singleton c cs b).1 h2
        simp [hn]
      · rintro ⟨h, ha, hb⟩
        cases a with
        | nil =>
          simp at h
          subst h
          rw [(splitChars_eq_singleton c cs cs).2 ⟨rfl, hb⟩]
        | cons x xs =>
          simp at h
          exact absurd (by rw [← h.1]; exact List.mem_cons_self _ _) ha
    · obtain ⟨p, ps, hp, hs⟩ := splitChars_cons_ne hc cs
      rw [hs]
      constructor
      · intro h
        have h1 : c :: p = a := by
          have := congrArg List.head? h
          simpa using this
        have h2 : ps = [b] := by
          have := congrArg List.tail h
          simpa using this
        subst h1 h2
        obtain ⟨rfl, hn, hb⟩ := (ih p).1 hp
        refine ⟨rfl, ?_, hb⟩
        intro hm
        rcases List.mem_cons.1 hm with h3 | h3
        · exact hc h3.symm
        · exact hn h3
      · rintro ⟨h, ha, hb⟩
        cases a with
        | nil =>
          simp at h
          exact absurd h.1 hc
        | cons x xs =>
          simp at h
          obtain ⟨rfl, rfl⟩ := h
          have hn2 : sep ∉ xs := fun hm => ha (List.mem_cons_of_mem _ hm)
          have := (ih xs).2 ⟨rfl, hn2, hb⟩
          rw [hp] at this
          simp at this
          obtain ⟨rfl, rfl⟩ := this
          rfl

theorem Split_ne_nil (s : String) (sep : Char) : Split s sep ≠ [] := by
  simp [Split, splitChars_ne_nil]

/-- The split of a string on a character is the pair `[x, y]` exactly when
the string is `x`, the separator, `y`, with no separator in `x` or `y`. -/
theorem Split_eq_pair (s x y : String) (sep : Char) :
    Split s sep = [x, y] ↔
      s = x ++ String.singleton sep ++ y ∧ sep ∉ x.data ∧ sep ∉ y.data := by
  have key : Split s sep = [x, y] ↔ splitChars sep s.data = [x.data, y.data] := by
    unfold Split
    constructor
    · intro h
      cases hs : splitChars sep s.data with
      | nil => rw [hs] at h; simp at h
      | cons a t =>
        cases t with
        | nil => rw [hs] at h; simp at h
        | cons b u =>
          cases u with
          | nil =>
            rw [hs] at h
            simp at h
            obtain ⟨rfl, rfl⟩ := h
            rfl
          | cons _ _ => rw [hs] at h; simp at h
    · intro h
      rw [h]
      rfl
  rw [key, splitChars_eq_pair]
  constructor
  · rintro ⟨h, ha, hb⟩
    refine ⟨?_, ha, hb⟩
    apply String.ext
    simp [h, String.singleton]
  · rintro ⟨h, ha, hb⟩
    refine ⟨?_, ha, hb⟩
    rw [h]
    simp [String.singleton]

end strings

/-! ## Lemmas on the middleware -/

namespace handler

open gin

/-- Effect of `newErrorResponse` on a context that has not been answered. -/
theorem newErrorResponse_fresh (c : Context) (code : Nat) (message : String)
    (hw : c.Writer = ResponseWriter.fresh) (hcode : bodyAllowedForStatus code = true)
    (hpos : 0 < code) :
    newErrorResponse c code message =
      { c with
        log := c.log ++ ["Error: " ++ message],
        aborted := true,
        Writer := { status := code, written := true, body := [Body.errorResponse message] } } := by
  simp only [newErrorResponse, Context.AbortWithStatusJSON, Context.Abort, Context.JSON,
    hcode, if_true, hw, ResponseWriter.fresh, ResponseWriter.WriteHeader,
    ResponseWriter.Write, ResponseWriter.WriteHeaderNow]
  by_cases h200 : (200 : Nat) = code
  · subst h200
    simp
  · simp [h200, hpos]

/-- The middleware as one case distinction on the split of the header: the
two index operations never go out of range. -/
theorem userIdentity_eq (h : Handler) (c : Context) :
    userIdentity h c =
      if c.GetHeader authHeader = "" then
        newErrorResponse c http.StatusUnauthorized "Empty auth header"
      else
        match strings.Split (c.GetHeader authHeader) ' ' with
        | [scheme, token] =>
          if scheme ≠ "Bearer" then
            newErrorResponse c http.StatusUnauthorized "Invalid auth header"
          else if token = "" then
            newErrorResponse c http.StatusUnauthorized "Empty token"
          else
            match h.services.Authorization.ParseToken token with
            | .error err =>
              newErrorResponse (c.call (service.Call.ParseToken token))
                http.StatusUnauthorized err.Error
            | .ok userId =>
              (c.call (service.Call.ParseToken token)).Set userCtx (Any.int userId)
        | _ => newErrorResponse c http.StatusUnauthorized "Invalid auth header" := by
  unfold userIdentity
  by_cases hh : c.GetHeader authHeader = ""
  · simp [hh]
  · simp only [hh, if_false]
    generalize strings.Split (c.GetHeader authHeader) ' ' = parts
    rcases parts with _ | ⟨a, _ | ⟨b, _ | ⟨d, l⟩⟩⟩ <;> simp

/-- A header `Bearer t` whose token has no space splits into the scheme and the token. -/
theorem Split_bearer (t : String) (ht : ' ' ∉ t.data) :
    strings.Split ("Bearer " ++ t) ' ' = ["Bearer", t] := by
  rw [strings.Split_eq_pair]
  refine ⟨?_, by decide, ht⟩
  apply String.ext
  simp [String.singleton]

theorem bearer_append_ne_empty (t : String) : "Bearer " ++ t ≠ "" := by
  intro h
  have := congrArg String.length h
  simp [String.length_append] at this
  exact absurd this.1 (by decide)

end handler

/-! ## The access middleware -/

namespace handler

open gin

/-- C3: for a header `Bearer t` with `t` non-empty and free of spaces, when
`ParseToken t` returns the id without error, `userIdentity` writes no
response, does not abort, and binds the id so that `getUserId` on the
resulting context returns exactly that id and no error. -/
theorem userIdentity_binds_user_id (h : Handler) (c : Context) (t : String) (id : Int)
    (hheader : c.GetHeader authHeader = "Bearer " ++ t)
    (hne : t ≠ "") (hsp : ' ' ∉ t.data)
    (hparse : h.services.Authorization.ParseToken t = .ok id) :
    (userIdentity h c).Writer = c.Writer ∧
    (userIdentity h c).aborted = c.aborted ∧
    (userIdentity h c).panicked = c.panicked ∧
    (userIdentity h c).calls = c.calls ++ [service.Call.ParseToken t] ∧
    getUserId (userIdentity h c) = (userIdentity h c, .ok id) := by
  have hc : userIdentity h c =
      (c.call (service.Call.ParseToken t)).Set userCtx (Any.int id) := by
    rw [userIdentity_eq, hheader, Split_bearer t hsp]
    simp [bearer_append_ne_empty, hne, hparse]
  rw [hc]
  refine ⟨rfl, rfl, rfl, rfl, ?_⟩
  simp [getUserId, Context.Get, Context.Set, List.lookup]

theorem userIdentity_binds_user_id_witness :
    getUserId (userIdentity mockHandler (Context.new (mockRequest "Bearer token" "") [])) =
      (userIdentity mockHandler (Context.new (mockRequest "Bearer token" "") []), .ok 1) :=
  (userIdentity_binds_user_id mockHandler (Context.new (mockRequest "Bearer token" "") [])
    "token" 1 (by decide) (by decide) (by decide) (by rfl)).2.2.2.2

/-- C4: for a well-formed header `Bearer t`, when `ParseToken t` returns
the error `e`, `userIdentity` rejects the request with status 401 and the
body whose message is `e.Error()`, and binds no user id. -/
theorem userIdentity_parse_error (h : Handler) (r : Request) (params : List (String × String))
    (t : String) (e : todo.Error)
    (hheader : (Context.new r params).GetHeader authHeader = "Bearer " ++ t)
    (hne : t ≠ "") (hsp : ' ' ∉ t.data)
    (hparse : h.services.Authorization.ParseToken t = .error e) :
    (userIdentity h (Context.new r params)).aborted = true ∧
    (userIdentity h (Context.new r params)).Writer =
      { status := 401, written := true, body := [Body.errorResponse e.Error] } ∧
    (userIdentity h (Context.new r params)).Keys = [] ∧
    (userIdentity h (Context.new r params)).Get userCtx = none := by
  have hc : userIdentity h (Context.new r params) =
      newErrorResponse ((Context.new r params).call (service.Call.ParseToken t))
        http.StatusUnauthorized e.Error := by
    rw [userIdentity_eq, hheader, Split_bearer t hsp]
    simp [bearer_append_ne_empty, hne, hparse]
  rw [hc, newErrorResponse_fresh _ _ _ rfl (by decide) (by decide)]
  simp [Context.new, Context.call, Context.Get]

theorem userIdentity_parse_error_witness :
    (userIdentity mockHandler (Context.new (mockRequest "Bearer tok" "") [])).Writer =
      { status := 401, written := true, body := [Body.errorResponse "Invalid token"] } ∧
    (userIdentity mockHandler (Context.new (mockRequest "Bearer tok" "") [])).Get userCtx = none :=
  have h := userIdentity_parse_error mockHandler (mockRequest "Bearer tok" "") [] "tok"
    (todo.Error.errorString "Invalid token") (by decide) (by decide) (by decide) (by rfl)
  ⟨h.2.1, h.2.2.2⟩

/-- C6: when the `Authorization` header is missing or empty, `userIdentity`
rejects with status 401 and the message `Empty auth header`, and
`ParseToken` is not called. -/
theorem userIdentity_empty_header (h : Handler) (r : Request) (params : List (String × String))
    (hmissing : r.Header.lookup authHeader = none ∨ r.Header.lookup authHeader = some [] ∨
      ∃ vs, r.Header.lookup authHeader = some ("" :: vs)) :
    (userIdentity h (Context.new r params)).aborted = true ∧
    (userIdentity h (Context.new r params)).Writer =
      { status := 401, written := true, body := [Body.errorResponse "Empty auth header"] } ∧
    (userIdentity h (Context.new r params)).calls = [] := by
  have hh : (Context.new r params).GetHeader authHeader = "" := by
    rcases hmissing with h1 | h1 | ⟨vs, h1⟩ <;> simp [Context.GetHeader, Context.new, h1]
  rw [userIdentity_eq, hh]
  simp only [if_true]
  rw [newErrorResponse_fresh _ _ _ rfl (by decide) (by decide)]
  simp [Context.new]

theorem userIdentity_empty_header_witness :
    (userIdentity mockHandler (Context.new { Header := [], Body := "" } [])).Writer =
      { status := 401, written := true, body := [Body.errorResponse "Empty auth header"] } ∧
    (userIdentity mockHandler (Context.new { Header := [], Body := "" } [])).calls = [] :=
  (userIdentity_empty_header mockHandler { Header := [], Body := "" } []
    (Or.inl (by decide))).2

end handler

namespace handler

open gin

/-- After `c.Set(userCtx, id)` with an int, `getUserId` returns the id. -/
theorem getUserId_Set (c : Context) (id : Int) :
    getUserId (c.Set userCtx (Any.int id)) = (c.Set userCtx (Any.int id), .ok id) := by
  simp [getUserId, Context.Get, Context.Set, List.lookup]

/-- Every run of the middleware on an unanswered context either rejects
with status 401, or passes after a successful `ParseToken`. -/
theorem userIdentity_cases (h : Handler) (c : Context) (hw : c.Writer = ResponseWriter.fresh) :
    ((∃ m, userIdentity h c =
        { c with
          log := c.log ++ ["Error: " ++ m],
          aborted := true,
          Writer := { status := 401, written := true, body := [Body.errorResponse m] } }) ∨
      ∃ t e, h.services.Authorization.ParseToken t = .error e ∧
        userIdentity h c =
        { c with
          calls := c.calls ++ [service.Call.ParseToken t],
          log := c.log ++ ["Error: " ++ e.Error],
          aborted := true,
          Writer := { status := 401, written := true, body := [Body.errorResponse e.Error] } }) ∨
    ∃ t id, c.GetHeader authHeader = "Bearer " ++ t ∧ t ≠ "" ∧ ' ' ∉ t.data ∧
      h.services.Authorization.ParseToken t = .ok id ∧
      userIdentity h c = (c.call (service.Call.ParseToken t)).Set userCtx (Any.int id) := by
  rw [userIdentity_eq]
  by_cases hh : c.GetHeader authHeader = ""
  · left; left
    exact ⟨_, by rw [if_pos hh, newErrorResponse_fresh _ _ _ hw (by decide) (by decide)]⟩
  · rw [if_neg hh]
    rcases hs : strings.Split (c.GetHeader authHeader) ' ' with _ | ⟨a, _ | ⟨b, _ | ⟨d, l⟩⟩⟩
    · left; left
      exact ⟨_, newErrorResponse_fresh _ _ _ hw (by decide) (by decide)⟩
    · left; left
      exact ⟨_, newErrorResponse_fresh _ _ _ hw (by decide) (by decide)⟩
    · by_cases ha : a = "Bearer"
      · by_cases hb : b = ""
        · left; left
          refine ⟨"Empty token", ?_⟩
          simp only [ha, hb, ne_eq, not_true_eq_false, if_false, if_true]
          exact newErrorResponse_fresh _ _ _ hw (by decide) (by decide)
        · subst ha
          obtain ⟨hhead, _, hsp⟩ := (strings.Split_eq_pair _ _ _ _).1 hs
          have hhead2 : c.GetHeader authHeader = "Bearer " ++ b := by
            rw [hhead]
            apply String.ext
            simp [String.singleton]
          cases hp : h.services.Authorization.ParseToken b with
          | error e =>
            left; right
            refine ⟨b, e, hp, ?_⟩
            simp only [ne_eq, not_true_eq_false, if_false, hb, hp]
            rw [newErrorResponse_fresh _ _ _ (by simpa [Context.call] using hw)
              (by decide) (by decide)]
            simp [Context.call]
          | ok id =>
            right
            refine ⟨b, id, hhead2, hb, hsp, hp, ?_⟩
            simp [hb, hp]
      · left; left
        refine ⟨"Invalid auth header", ?_⟩
        simp only [ne_eq, ha, not_false_eq_true, if_true]
        exact newErrorResponse_fresh _ _ _ hw (by decide) (by decide)
    · left; left
      exact ⟨_, newErrorResponse_fresh _ _ _ hw (by decide) (by decide)⟩

/-- C5: every rejection by `userIdentity` short-circuits the pipeline. When
the middleware has written a response the request is aborted with status
401 and the chain stops after the middleware; and when a downstream
handler is invoked, its context holds the user id that a successful
`ParseToken` returned for the token of the header. -/
theorem userIdentity_short_circuits (h : Handler) (r : Request)
    (params : List (String × String)) (next : HandlerFunc) :
    ((userIdentity h (Context.new r params)).Writer.written = true →
      (userIdentity h (Context.new r params)).aborted = true ∧
      (userIdentity h (Context.new r params)).Writer.status = 401 ∧
      runChain [userIdentity h, next] (Context.new r params) =
        (userIdentity h (Context.new r params), [Context.new r params])) ∧
    (∀ cin, (runChain [userIdentity h, next] (Context.new r params)).2 =
        [Context.new r params, cin] →
      ∃ t id, (Context.new r params).GetHeader authHeader = "Bearer " ++ t ∧
        h.services.Authorization.ParseToken t = .ok id ∧
        cin = userIdentity h (Context.new r params) ∧
        cin.Writer.written = false ∧
        getUserId cin = (cin, .ok id)) := by
  have hrun : runChain [userIdentity h, next] (Context.new r params) =
      if (userIdentity h (Context.new r params)).aborted = true then
        (userIdentity h (Context.new r params), [Context.new r params])
      else
        (next (userIdentity h (Context.new r params)),
          [Context.new r params, userIdentity h (Context.new r params)]) := by
    have hnew : (Context.new r params).aborted = false := rfl
    by_cases hab : (userIdentity h (Context.new r params)).aborted = true <;>
      simp [runChain, Context.IsAborted, hab, hnew]
  rcases userIdentity_cases h (Context.new r params) rfl with
    (⟨m, hc⟩ | ⟨t, e, _, hc⟩) | ⟨t, id, hhead, hne, hsp, hp, hc⟩
  · rw [hrun, hc]
    refine ⟨fun _ => ⟨rfl, rfl, by simp⟩, ?_⟩
    intro cin hcin
    simp at hcin
  · rw [hrun, hc]
    refine ⟨fun _ => ⟨rfl, rfl, by simp⟩, ?_⟩
    intro cin hcin
    simp at hcin
  · have hbind : getUserId (userIdentity h (Context.new r params)) =
        (userIdentity h (Context.new r params), .ok id) := by
      rw [hc]
      exact getUserId_Set _ id
    have hnab : (userIdentity h (Context.new r params)).aborted = false := by
      rw [hc]; rfl
    have hwr : (userIdentity h (Context.new r params)).Writer.written = false := by
      rw [hc]; rfl
    rw [hrun]
    refine ⟨fun hwritten => ?_, ?_⟩
    · rw [hwr] at hwritten
      exact absurd hwritten (by decide)
    · intro cin hcin
      simp [hnab] at hcin
      subst hcin
      exact ⟨t, id, hhead, hp, rfl, hwr, hbind⟩

theorem userIdentity_short_circuits_witness :
    runChain [userIdentity mockHandler, getItemById mockHandler]
        (Context.new (mockRequest "Bearer" "") [("id", "1")]) =
      (userIdentity mockHandler (Context.new (mockRequest "Bearer" "") [("id", "1")]),
        [Context.new (mockRequest "Bearer" "") [("id", "1")]]) ∧
    ∃ t id, (Context.new (mockRequest "Bearer token" "") [("id", "1")]).GetHeader authHeader =
        "Bearer " ++ t ∧
      mockHandler.services.Authorization.ParseToken t = .ok id ∧
      userIdentity mockHandler (Context.new (mockRequest "Bearer token" "") [("id", "1")]) =
        userIdentity mockHandler (Context.new (mockRequest "Bearer token" "") [("id", "1")]) ∧
      (userIdentity mockHandler
        (Context.new (mockRequest "Bearer token" "") [("id", "1")])).Writer.written = false ∧
      getUserId (userIdentity mockHandler
          (Context.new (mockRequest "Bearer token" "") [("id", "1")])) =
        (userIdentity mockHandler (Context.new (mockRequest "Bearer token" "") [("id", "1")]),
          .ok id) :=
  ⟨((userIdentity_short_circuits mockHandler (mockRequest "Bearer" "") [("id", "1")]
      (getItemById mockHandler)).1 (by decide)).2.2,
    (userIdentity_short_circuits mockHandler (mockRequest "Bearer token" "") [("id", "1")]
      (getItemById mockHandler)).2
      (userIdentity mockHandler (Context.new (mockRequest "Bearer token" "") [("id", "1")]))
      (by decide)⟩

end handler

namespace handler

open gin

/-- C7: for a non-empty header, `userIdentity` rejects with status 401 and
the message `Invalid auth header`, without calling `ParseToken`, exactly
when the split of the header on the space character does not have two
parts or its first part is not the literal `Bearer`. -/
theorem userIdentity_invalid_header_iff (h : Handler) (r : Request)
    (params : List (String × String))
    (hne : (Context.new r params).GetHeader authHeader ≠ "") :
    ((userIdentity h (Context.new r params)).aborted = true ∧
      (userIdentity h (Context.new r params)).Writer =
        { status := 401, written := true, body := [Body.errorResponse "Invalid auth header"] } ∧
      (userIdentity h (Context.new r params)).calls = []) ↔
    ((strings.Split ((Context.new r params).GetHeader authHeader) ' ').length ≠ 2 ∨
      (strings.Split ((Context.new r params).GetHeader authHeader) ' ')[0]? ≠ some "Bearer") := by
  have hw : (Context.new r params).Writer = ResponseWriter.fresh := rfl
  have hcalls : (Context.new r params).calls = [] := rfl
  generalize Context.new r params = c at hne hw hcalls ⊢
  have hrej : ∀ (k : Context) (m : String), k.Writer = ResponseWriter.fresh →
      newErrorResponse k http.StatusUnauthorized m =
      { k with
        log := k.log ++ ["Error: " ++ m],
        aborted := true,
        Writer := { status := 401, written := true, body := [Body.errorResponse m] } } :=
    fun k m hk => newErrorResponse_fresh _ _ _ hk (by decide) (by decide)
  rw [userIdentity_eq, if_neg hne]
  rcases strings.Split (c.GetHeader authHeader) ' ' with _ | ⟨a, _ | ⟨b, _ | ⟨d, l⟩⟩⟩
  · simp [hrej c _ hw, hcalls]
  · simp [hrej c _ hw, hcalls]
  · by_cases ha : a = "Bearer"
    · by_cases hb : b = ""
      · simp [ha, hb, hrej c _ hw]
      · cases hp : h.services.Authorization.ParseToken b with
        | error e =>
          simp only [ha, hb, hp, ne_eq, not_true_eq_false, if_false]
          rw [hrej _ _ (show (c.call (service.Call.ParseToken b)).Writer = _ from hw)]
          simp [Context.call]
        | ok id =>
          simp [ha, hb, hp, Context.call, Context.Set]
    · simp [ha, hrej c _ hw, hcalls]
  · simp [hrej c _ hw, hcalls]

theorem userIdentity_invalid_header_iff_witness :
    (userIdentity mockHandler (Context.new (mockRequest "Bearer  token" "") [])).Writer =
        { status := 401, written := true, body := [Body.errorResponse "Invalid auth header"] } ∧
    (userIdentity mockHandler (Context.new (mockRequest "Bearer  token" "") [])).calls = [] :=
  ((userIdentity_invalid_header_iff mockHandler (mockRequest "Bearer  token" "") []
    (by decide)).2 (Or.inl (by decide))).2

/-- C8: `userIdentity` rejects with status 401 and the message
`Empty token`, without calling `ParseToken`, exactly when the header is
`Bearer` followed by one space and nothing else; the header `Bearr`
followed by one space is reported as an invalid header. -/
theorem userIdentity_empty_token_iff (h : Handler) (r : Request)
    (params : List (String × String)) :
    (((userIdentity h (Context.new r params)).aborted = true ∧
      (userIdentity h (Context.new r params)).Writer =
        { status := 401, written := true, body := [Body.errorResponse "Empty token"] } ∧
      (userIdentity h (Context.new r params)).calls = []) ↔
      (Context.new r params).GetHeader authHeader = "Bearer ") ∧
    ((Context.new r params).GetHeader authHeader = "Bearr " →
      (userIdentity h (Context.new r params)).aborted = true ∧
      (userIdentity h (Context.new r params)).Writer =
        { status := 401, written := true, body := [Body.errorResponse "Invalid auth header"] } ∧
      (userIdentity h (Context.new r params)).calls = []) := by
  have hw : (Context.new r params).Writer = ResponseWriter.fresh := rfl
  have hcalls : (Context.new r params).calls = [] := rfl
  generalize Context.new r params = c at hw hcalls ⊢
  have hrej : ∀ (k : Context) (m : String), k.Writer = ResponseWriter.fresh →
      newErrorResponse k http.StatusUnauthorized m =
      { k with
        log := k.log ++ ["Error: " ++ m],
        aborted := true,
        Writer := { status := 401, written := true, body := [Body.errorResponse m] } } :=
    fun k m hk => newErrorResponse_fresh _ _ _ hk (by decide) (by decide)
  refine ⟨⟨?_, ?_⟩, ?_⟩
  · rw [userIdentity_eq]
    by_cases hh : c.GetHeader authHeader = ""
    · rw [if_pos hh]
      simp [hrej c _ hw]
    · rw [if_neg hh]
      rcases hs : strings.Split (c.GetHeader authHeader) ' ' with _ | ⟨a, _ | ⟨b, _ | ⟨d, l⟩⟩⟩
      · simp [hrej c _ hw]
      · simp [hrej c _ hw]
      · by_cases ha : a = "Bearer"
        · by_cases hb : b = ""
          · subst ha hb
            obtain ⟨hhead, _, _⟩ := (strings.Split_eq_pair _ _ _ _).1 hs
            intro _
            rw [hhead]
            decide
          · cases hp : h.services.Authorization.ParseToken b with
            | error e =>
              simp only [ha, hb, hp, ne_eq, not_true_eq_false, if_false]
              rw [hrej _ _ (show (c.call (service.Call.ParseToken b)).Writer = _ from hw)]
              simp [Context.call]
            | ok id =>
              simp [ha, hb, hp, Context.call, Context.Set]
        · simp [ha, hrej c _ hw]
      · simp [hrej c _ hw]
  · intro hhead
    have hs : strings.Split "Bearer " ' ' = ["Bearer", ""] := by decide
    rw [userIdentity_eq, hhead, hs]
    simp [hrej c _ hw, hcalls]
  · intro hhead
    have hs : strings.Split "Bearr " ' ' = ["Bearr", ""] := by decide
    rw [userIdentity_eq, hhead, hs]
    simp [hrej c _ hw, hcalls]

theorem userIdentity_empty_token_iff_witness :
    (userIdentity mockHandler (Context.new (mockRequest "Bearr " "") [])).Writer =
        { status := 401, written := true, body := [Body.errorResponse "Invalid auth header"] } ∧
    (userIdentity mockHandler (Context.new (mockRequest "Bearr " "") [])).calls = [] :=
  ((userIdentity_empty_token_iff mockHandler (mockRequest "Bearr " "") []).2 (by decide)).2

end handler

/-! ## The item handlers -/

namespace handler

open gin

theorem getUserId_of_int (c : Context) (userId : Int)
    (huser : c.Get userCtx = some (Any.int userId)) : getUserId c = (c, .ok userId) := by
  simp [getUserId, huser]

/-- C1: whenever the item service answers `GetById` or `Update` with
`ErrNoSuchItem`, the handler answers the constant status 200 with the
message `No item with such id`, for every user id and every item id: the
response depends on neither, so an id that does not exist and an id owned
by another user get identical responses. -/
theorem item_not_found_constant_response (h : Handler) (b : Binding) (c : Context)
    (userId id : Int)
    (hw : c.Writer = ResponseWriter.fresh)
    (huser : c.Get userCtx = some (Any.int userId))
    (hid : strconv.Atoi (c.Param "id") = some id) :
    (h.services.TodoItem.GetById userId id = .error todo.Error.ErrNoSuchItem →
      (getItemById h c).Writer =
        { status := 200, written := true,
          body := [Body.errorResponse "No item with such id"] }) ∧
    (∀ input, b.UpdateItemInput c.Request.Body = .ok input →
      h.services.TodoItem.Update userId id input = some todo.Error.ErrNoSuchItem →
      (updateItem h b c).Writer =
        { status := 200, written := true,
          body := [Body.errorResponse "No item with such id"] }) := by
  constructor
  · intro hsvc
    simp only [getItemById, getUserId_of_int c userId huser, hid, hsvc]
    rw [newErrorResponse_fresh _ _ _ (by simpa [Context.call] using hw) (by decide) (by decide)]
    rfl
  · intro input hbind hsvc
    simp only [updateItem, getUserId_of_int c userId huser, hid, Context.BindJSON, hbind, hsvc]
    rw [newErrorResponse_fresh _ _ _ (by simpa [Context.call] using hw) (by decide) (by decide)]
    rfl

theorem item_not_found_constant_response_witness :
    (getItemById mockHandler (mockContext 1 "10" "")).Writer =
        { status := 200, written := true,
          body := [Body.errorResponse "No item with such id"] } ∧
    (updateItem mockHandler mockBinding (mockContext 2 "10" "\x7b\"title\":\"Test\"\x7d")).Writer =
        { status := 200, written := true,
          body := [Body.errorResponse "No item with such id"] } :=
  ⟨(item_not_found_constant_response mockHandler mockBinding (mockContext 1 "10" "") 1 10
      rfl (by decide) (by decide)).1 (by rfl),
   (item_not_found_constant_response mockHandler mockBinding
      (mockContext 2 "10" "\x7b\"title\":\"Test\"\x7d") 2 10
      rfl (by decide) (by decide)).2
      { Title := some "Test", Description := none, Done := none } (by rfl) (by decide)⟩

/-- C2: whenever the item service answers `Create` or `GetAll` with
`ErrNoSuchList`, the handler answers the constant status 200 with the
message `No list with such id`, whatever the user id, the list id and the
request body: a list of another user and a list that does not exist render
the same response. -/
theorem list_not_found_constant_response (h : Handler) (b : Binding) (c : Context)
    (userId listId : Int)
    (hw : c.Writer = ResponseWriter.fresh)
    (huser : c.Get userCtx = some (Any.int userId))
    (hid : strconv.Atoi (c.Param "id") = some listId) :
    (∀ input, b.TodoItem c.Request.Body = .ok input →
      h.services.TodoItem.Create userId listId input = .error todo.Error.ErrNoSuchList →
      (createItem h b c).Writer =
        { status := 200, written := true,
          body := [Body.errorResponse "No list with such id"] }) ∧
    (h.services.TodoItem.GetAll userId listId = .error todo.Error.ErrNoSuchList →
      (getAllItems h c).Writer =
        { status := 200, written := true,
          body := [Body.errorResponse "No list with such id"] }) := by
  constructor
  · intro input hbind hsvc
    simp only [createItem, getUserId_of_int c userId huser, hid, Context.BindJSON, hbind, hsvc]
    rw [newErrorResponse_fresh _ _ _ (by simpa [Context.call] using hw) (by decide) (by decide)]
    rfl
  · intro hsvc
    simp only [getAllItems, getUserId_of_int c userId huser, hid, hsvc]
    rw [newErrorResponse_fresh _ _ _ (by simpa [Context.call] using hw) (by decide) (by decide)]
    rfl

theorem list_not_found_constant_response_witness :
    (createItem mockHandler mockBinding (mockContext 1 "10" "\x7b\"title\":\"Other\"\x7d")).Writer =
        { status := 200, written := true,
          body := [Body.errorResponse "No list with such id"] } ∧
    (getAllItems mockHandler (mockContext 2 "10" "")).Writer =
        { status := 200, written := true,
          body := [Body.errorResponse "No list with such id"] } :=
  ⟨(list_not_found_constant_response mockHandler mockBinding
      (mockContext 1 "10" "\x7b\"title\":\"Other\"\x7d") 1 10 rfl (by decide) (by decide)).1
      { Id := 0, Title := "Other", Description := "", Done := false } (by rfl) (by rfl),
   (list_not_found_constant_response mockHandler mockBinding (mockContext 2 "10" "") 2 10
      rfl (by decide) (by decide)).2 (by rfl)⟩

end handler

namespace handler

open gin

theorem JSON_calls (c : Context) (code : Nat) (obj : Body) :
    (c.JSON code obj).calls = c.calls := by
  unfold Context.JSON
  split <;> rfl

theorem newErrorResponse_calls (c : Context) (code : Nat) (message : String) :
    (newErrorResponse c code message).calls = c.calls := by
  simp [newErrorResponse, Context.AbortWithStatusJSON, JSON_calls, Context.Abort]

/-- The service calls `createItem` makes: none, or one `Create` whose user
id is the int stored in the context and whose list id is the parsed path
parameter. -/
theorem createItem_calls (h : Handler) (b : Binding) (c : Context) :
    (createItem h b c).calls = c.calls ∨
    ∃ userId listId input,
      c.Get userCtx = some (Any.int userId) ∧
      strconv.Atoi (c.Param "id") = some listId ∧
      b.TodoItem c.Request.Body = .ok input ∧
      (createItem h b c).calls = c.calls ++ [service.Call.Create userId listId input] := by
  unfold createItem
  cases hu : c.Get userCtx with
  | none => left; simp [getUserId, hu, newErrorResponse_calls]
  | some v =>
    cases v with
    | int userId =>
      simp only [getUserId, hu]
      cases hid : strconv.Atoi (c.Param "id") with
      | none => left; simp [newErrorResponse_calls]
      | some listId =>
        cases hb : b.TodoItem c.Request.Body with
        | error e =>
          left
          simp [Context.BindJSON, hb, newErrorResponse_calls, Context.AbortWithStatus]
        | ok input =>
          right
          refine ⟨userId, listId, input, rfl, rfl, rfl, ?_⟩
          simp only [Context.BindJSON, hb]
          cases hs : h.services.TodoItem.Create userId listId input with
          | error err => simp [newErrorResponse_calls, Context.call]
          | ok id => simp [JSON_calls, Context.call]
    | string s => left; simp [getUserId, hu, newErrorResponse_calls]
    | bool s => left; simp [getUserId, hu, newErrorResponse_calls]

/-- C9: the user id given to the service never comes from the request
body. Every `Create` call that `createItem` makes has as first argument
the user id stored in the request context and as second the integer parsed
from the path parameter; and two requests with the same context user id
and the same path parameter call `Create` with the same user id and list
id, whatever their bodies and decoders. -/
theorem createItem_user_id_from_context (h : Handler) (b : Binding) (c : Context) :
    (∀ userId listId input,
      (createItem h b c).calls = c.calls ++ [service.Call.Create userId listId input] →
      c.Get userCtx = some (Any.int userId) ∧
      strconv.Atoi (c.Param "id") = some listId ∧
      b.TodoItem c.Request.Body = .ok input) ∧
    (∀ (h2 : Handler) (b2 : Binding) (c2 : Context) userId listId input userId2 listId2 input2,
      c2.Get userCtx = c.Get userCtx → c2.Param "id" = c.Param "id" →
      (createItem h b c).calls = c.calls ++ [service.Call.Create userId listId input] →
      (createItem h2 b2 c2).calls = c2.calls ++ [service.Call.Create userId2 listId2 input2] →
      userId2 = userId ∧ listId2 = listId) := by
  have key : ∀ (h : Handler) (b : Binding) (c : Context) userId listId input,
      (createItem h b c).calls = c.calls ++ [service.Call.Create userId listId input] →
      c.Get userCtx = some (Any.int userId) ∧
      strconv.Atoi (c.Param "id") = some listId ∧
      b.TodoItem c.Request.Body = .ok input := by
    intro h b c userId listId input hcalls
    rcases createItem_calls h b c with hnone | ⟨u, l, i, hu, hl, hi, hsome⟩
    · rw [hnone] at hcalls
      simp at hcalls
    · rw [hsome] at hcalls
      simp at hcalls
      obtain ⟨rfl, rfl, rfl⟩ := hcalls
      exact ⟨hu, hl, hi⟩
  refine ⟨key h b c, ?_⟩
  intro h2 b2 c2 userId listId input userId2 listId2 input2 hctx hparam h1 h2
  obtain ⟨hu, hl, _⟩ := key h b c userId listId input h1
  obtain ⟨hu2, hl2, _⟩ := key _ b2 c2 userId2 listId2 input2 h2
  rw [hctx, hu] at hu2
  rw [hparam, hl] at hl2
  simp at hu2 hl2
  exact ⟨hu2.symm, hl2.symm⟩

theorem createItem_user_id_from_context_witness :
    (createItem mockHandler mockBinding
        (mockContext 1 "1" "\x7b\"title\":\"Test\",\"description\":\"Description\"\x7d")).calls =
      [service.Call.Create 1 1
        { Id := 0, Title := "Test", Description := "Description", Done := false }] ∧
    (createItem mockHandler mockBinding (mockContext 1 "1" "\x7b\"title\":\"Other\"\x7d")).calls =
      [service.Call.Create 1 1 { Id := 0, Title := "Other", Description := "", Done := false }] ∧
    (mockContext 1 "1" "\x7b\"title\":\"Other\"\x7d").Get userCtx = some (Any.int 1) ∧
    ((1 : Int) = 1 ∧ (1 : Int) = 1) :=
  ⟨by decide, by decide,
    ((createItem_user_id_from_context mockHandler mockBinding
      (mockContext 1 "1" "\x7b\"title\":\"Other\"\x7d")).1
      1 1 { Id := 0, Title := "Other", Description := "", Done := false } (by decide)).1,
    (createItem_user_id_from_context mockHandler mockBinding
      (mockContext 1 "1" "\x7b\"title\":\"Test\",\"description\":\"Description\"\x7d")).2
      mockHandler mockBinding (mockContext 1 "1" "\x7b\"title\":\"Other\"\x7d")
      1 1 { Id := 0, Title := "Test", Description := "Description", Done := false }
      1 1 { Id := 0, Title := "Other", Description := "", Done := false }
      (by decide) (by decide) (by decide) (by decide)⟩

end handler

/-! ## Validation of update inputs -/

namespace todo

/-- C10: `UpdateItemInput.Validate` returns `ErrInvalidUpdateItemInput`
exactly when `Title`, `Description` and `Done` are all absent, and returns
no error for every input in which one of them is present, whatever the
present values are. -/
theorem UpdateItemInput_Validate_iff (i : UpdateItemInput) :
    (i.Validate = some Error.ErrInvalidUpdateItemInput ↔
      i.Title = none ∧ i.Description = none ∧ i.Done = none) ∧
    (¬(i.Title = none ∧ i.Description = none ∧ i.Done = none) → i.Validate = none) ∧
    (i.Validate = none ∨ i.Validate = some Error.ErrInvalidUpdateItemInput) := by
  unfold UpdateItemInput.Validate
  by_cases hall : i.Title = none ∧ i.Description = none ∧ i.Done = none
  · simp [hall]
  · simp [hall]

theorem UpdateItemInput_Validate_iff_witness :
    UpdateItemInput.Validate { Title := some "", Description := none, Done := none } = none :=
  (UpdateItemInput_Validate_iff { Title := some "", Description := none, Done := none }).2.1
    (by decide)

end todo

namespace todo

/-- C11: `UpdateListInput.Validate` returns `ErrInvalidUpdateListInput`
exactly when `Title` and `Description` are both absent, and returns no
error for every input in which one of them is present. -/
theorem UpdateListInput_Validate_iff (i : UpdateListInput) :
    (i.Validate = some Error.ErrInvalidUpdateListInput ↔
      i.Title = none ∧ i.Description = none) ∧
    (¬(i.Title = none ∧ i.Description = none) → i.Validate = none) ∧
    (i.Validate = none ∨ i.Validate = some Error.ErrInvalidUpdateListInput) := by
  unfold UpdateListInput.Validate
  by_cases hall : i.Title = none ∧ i.Description = none
  · simp [hall]
  · simp [hall]

theorem UpdateListInput_Validate_iff_witness :
    UpdateListInput.Validate { Title := none, Description := some "Description" } = none :=
  (UpdateListInput_Validate_iff { Title := none, Description := some "Description" }).2.1
    (by decide)

end todo

/-! ## Responses of the handlers -/

namespace handler

open gin

/-- Effect of `c.JSON` on a context that has not been answered. -/
theorem JSON_fresh (c : Context) (code : Nat) (obj : Body)
    (hw : c.Writer = ResponseWriter.fresh) (hcode : bodyAllowedForStatus code = true)
    (hpos : 0 < code) :
    c.JSON code obj =
      { c with Writer := { status := code, written := true, body := [obj] } } := by
  simp only [Context.JSON, hcode, if_true, hw, ResponseWriter.fresh,
    ResponseWriter.WriteHeader, ResponseWriter.Write, ResponseWriter.WriteHeaderNow]
  by_cases h200 : (200 : Nat) = code
  · subst h200
    simp
  · simp [h200, hpos]

/-- A failed `BindJSON` on an unanswered context followed by the handler's
own error response with status 400: one response, status 400. -/
theorem newErrorResponse_after_bind_failure (c : Context) (message : String)
    (hw : c.Writer = ResponseWriter.fresh) :
    newErrorResponse (c.AbortWithStatus 400) http.StatusBadRequest message =
      { c with
        log := c.log ++ ["Error: " ++ message],
        aborted := true,
        Writer := { status := 400, written := true, body := [Body.errorResponse message] } } := by
  have h400 : bodyAllowedForStatus 400 = true := by decide
  simp [newErrorResponse, Context.AbortWithStatusJSON, Context.Abort, Context.JSON,
    Context.AbortWithStatus, http.StatusBadRequest, h400, hw, ResponseWriter.fresh,
    ResponseWriter.WriteHeader, ResponseWriter.Write, ResponseWriter.WriteHeaderNow]

/-- C12: delete absorbs absence. For a valid integer item id, `deleteItem`
answers status 200 with the body `status: ok` whenever `Delete` returns no
error, whatever the id matches, so repeating the delete gives the same
success response; a failure response is produced only by an error of
`Delete`, and is status 500 with the message of the error. -/
theorem deleteItem_absorbs_absence (h : Handler) (c : Context) (userId itemId : Int)
    (hw : c.Writer = ResponseWriter.fresh)
    (huser : c.Get userCtx = some (Any.int userId))
    (hid : strconv.Atoi (c.Param "id") = some itemId) :
    (h.services.TodoItem.Delete userId itemId = none →
      (deleteItem h c).Writer =
        { status := 200, written := true, body := [Body.statusResponse "ok"] } ∧
      (deleteItem h c).aborted = c.aborted) ∧
    (∀ err, h.services.TodoItem.Delete userId itemId = some err →
      (deleteItem h c).Writer =
        { status := 500, written := true, body := [Body.errorResponse err.Error] }) ∧
    ((deleteItem h c).Writer ≠
        { status := 200, written := true, body := [Body.statusResponse "ok"] } →
      ∃ err, h.services.TodoItem.Delete userId itemId = some err) ∧
    (∀ (h2 : Handler) (c2 : Context), c2.Writer = ResponseWriter.fresh →
      c2.Get userCtx = some (Any.int userId) →
      strconv.Atoi (c2.Param "id") = some itemId →
      h.services.TodoItem.Delete userId itemId = none →
      h2.services.TodoItem.Delete userId itemId = none →
      (deleteItem h2 c2).Writer = (deleteItem h c).Writer) := by
  have hok : ∀ (h : Handler) (c : Context), c.Writer = ResponseWriter.fresh →
      c.Get userCtx = some (Any.int userId) →
      strconv.Atoi (c.Param "id") = some itemId →
      h.services.TodoItem.Delete userId itemId = none →
      deleteItem h c =
        { c.call (service.Call.Delete userId itemId) with
          Writer := { status := 200, written := true, body := [Body.statusResponse "ok"] } } := by
    intro h c hw huser hid hsvc
    simp only [deleteItem, getUserId_of_int c userId huser, hid, hsvc]
    rw [JSON_fresh _ _ _ (by simpa [Context.call] using hw) (by decide) (by decide)]
  have herr : ∀ err, h.services.TodoItem.Delete userId itemId = some err →
      (deleteItem h c).Writer =
        { status := 500, written := true, body := [Body.errorResponse err.Error] } := by
    intro err hsvc
    simp only [deleteItem, getUserId_of_int c userId huser, hid, hsvc]
    rw [newErrorResponse_fresh _ _ _ (by simpa [Context.call] using hw) (by decide) (by decide)]
  refine ⟨fun hsvc => ?_, herr, ?_, ?_⟩
  · rw [hok h c hw huser hid hsvc]
    exact ⟨rfl, rfl⟩
  · intro hne
    cases hsvc : h.services.TodoItem.Delete userId itemId with
    | none => rw [hok h c hw huser hid hsvc] at hne; exact absurd rfl hne
    | some err => exact ⟨err, rfl⟩
  · intro h2 c2 hw2 huser2 hid2 hsvc hsvc2
    rw [hok h c hw huser hid hsvc, hok h2 c2 hw2 huser2 hid2 hsvc2]

theorem deleteItem_absorbs_absence_witness :
    (deleteItem mockHandler (mockContext 1 "10" "")).Writer =
        { status := 200, written := true, body := [Body.statusResponse "ok"] } ∧
    (deleteItem failingHandler (mockContext 1 "10" "")).Writer =
        { status := 500, written := true, body := [Body.errorResponse "Service failure"] } ∧
    (deleteItem mockHandler (mockContext 1 "10" "")).Writer =
      (deleteItem mockHandler (mockContext 1 "10" "")).Writer :=
  ⟨((deleteItem_absorbs_absence mockHandler (mockContext 1 "10" "") 1 10
      rfl (by decide) (by decide)).1 (by decide)).1,
    (deleteItem_absorbs_absence failingHandler (mockContext 1 "10" "") 1 10
      rfl (by decide) (by decide)).2.1 (todo.Error.errorString "Service failure") (by decide),
    (deleteItem_absorbs_absence mockHandler (mockContext 1 "10" "") 1 10
      rfl (by decide) (by decide)).2.2.2 mockHandler (mockContext 1 "10" "")
      rfl (by decide) (by decide) (by decide) (by decide)⟩

/-- C13: whenever `GenerateToken` returns `ErrInvalidCredentials`, `signIn`
answers the constant status 200 with the message `Invalid credentials`,
the same for every username and password; every other error gives status
500 with the message of the error, and success gives status 200 with the
token returned. -/
theorem signIn_responses (h : Handler) (bind : String → Except todo.Error signInInput)
    (c : Context) (input : signInInput)
    (hw : c.Writer = ResponseWriter.fresh)
    (hbind : bind c.Request.Body = .ok input) :
    (h.services.Authorization.GenerateToken input.Username input.Password =
        .error todo.Error.ErrInvalidCredentials →
      (signIn h bind c).Writer =
        { status := 200, written := true,
          body := [Body.errorResponse "Invalid credentials"] }) ∧
    (∀ err, err ≠ todo.Error.ErrInvalidCredentials →
      h.services.Authorization.GenerateToken input.Username input.Password = .error err →
      (signIn h bind c).Writer =
        { status := 500, written := true, body := [Body.errorResponse err.Error] }) ∧
    (∀ token,
      h.services.Authorization.GenerateToken input.Username input.Password = .ok token →
      (signIn h bind c).Writer =
        { status := 200, written := true, body := [Body.token token] }) := by
  have hw2 : (c.call (service.Call.GenerateToken input.Username input.Password)).Writer =
      ResponseWriter.fresh := hw
  refine ⟨?_, ?_, ?_⟩
  · intro hsvc
    simp only [signIn, Context.BindJSON, hbind, hsvc]
    rw [newErrorResponse_fresh _ _ _ hw2 (by decide) (by decide)]
    rfl
  · intro err hne hsvc
    cases err with
    | ErrInvalidCredentials => exact absurd rfl hne
    | _ =>
      simp only [signIn, Context.BindJSON, hbind, hsvc]
      rw [newErrorResponse_fresh _ _ _ hw2 (by decide) (by decide)]
  · intro token hsvc
    simp only [signIn, Context.BindJSON, hbind, hsvc]
    rw [JSON_fresh _ _ _ hw2 (by decide) (by decide)]

theorem signIn_responses_witness :
    (signIn mockSignInHandler mockSignInBinding
        (Context.new { Header := [], Body := "\x7b\"username\":\"test\",\"password\":\"ytrewq\"\x7d" }
          [])).Writer =
      { status := 200, written := true,
        body := [Body.errorResponse "Invalid credentials"] } ∧
    (signIn mockSignInHandler mockSignInBinding
        (Context.new { Header := [], Body := "\x7b\"username\":\"test\",\"password\":\"qwerty\"\x7d" }
          [])).Writer =
      { status := 200, written := true, body := [Body.token "token"] } :=
  ⟨(signIn_responses mockSignInHandler mockSignInBinding
      (Context.new { Header := [], Body := "\x7b\"username\":\"test\",\"password\":\"ytrewq\"\x7d" }
        [])
      { Username := "test", Password := "ytrewq" } rfl (by rfl)).1 (by rfl),
    (signIn_responses mockSignInHandler mockSignInBinding
      (Context.new { Header := [], Body := "\x7b\"username\":\"test\",\"password\":\"qwerty\"\x7d" }
        [])
      { Username := "test", Password := "qwerty" } rfl (by rfl)).2.2 "token" (by rfl)⟩

end handler

namespace handler

open gin

/-- C14: title validation precedes the service. For a `createItem` request
with a valid list id whose body decodes to an item with the empty title
(the title is missing or empty), or does not decode at all, the handler
answers status 400 with the message `Invalid request body`, and `Create`
is not called. -/
theorem createItem_title_required (h : Handler)
    (decodeTodoItem : String → Except todo.Error todo.TodoItem)
    (decodeUpdateItemInput : String → Except todo.Error todo.UpdateItemInput)
    (c : Context) (userId listId : Int)
    (hw : c.Writer = ResponseWriter.fresh)
    (huser : c.Get userCtx = some (Any.int userId))
    (hid : strconv.Atoi (c.Param "id") = some listId)
    (hbody : (∃ err, decodeTodoItem c.Request.Body = .error err) ∨
      ∃ input, decodeTodoItem c.Request.Body = .ok input ∧ input.Title = "") :
    (createItem h (Binding.JSON decodeTodoItem decodeUpdateItemInput) c).Writer =
      { status := 400, written := true, body := [Body.errorResponse "Invalid request body"] } ∧
    (createItem h (Binding.JSON decodeTodoItem decodeUpdateItemInput) c).aborted = true ∧
    (createItem h (Binding.JSON decodeTodoItem decodeUpdateItemInput) c).calls = c.calls := by
  have hbind : ∃ err, (Binding.JSON decodeTodoItem decodeUpdateItemInput).TodoItem
      c.Request.Body = .error err := by
    rcases hbody with ⟨err, he⟩ | ⟨input, hi, ht⟩
    · exact ⟨err, by simp [Binding.JSON, he]⟩
    · exact ⟨todo.Error.errorString "Field validation for Title failed on the required tag",
        by simp [Binding.JSON, hi, validateTodoItem, ht]⟩
  obtain ⟨err, hb⟩ := hbind
  simp only [createItem, getUserId_of_int c userId huser, hid, Context.BindJSON, hb]
  rw [newErrorResponse_after_bind_failure c _ hw]
  exact ⟨rfl, rfl, rfl⟩

theorem createItem_title_required_witness :
    (createItem mockHandler (Binding.JSON mockDecodeTodoItem mockBinding.UpdateItemInput)
        (mockContext 1 "1" "\x7b\"description\":\"Description\"\x7d")).Writer =
      { status := 400, written := true, body := [Body.errorResponse "Invalid request body"] } ∧
    (createItem mockHandler (Binding.JSON mockDecodeTodoItem mockBinding.UpdateItemInput)
        (mockContext 1 "1" "\x7b\"description\":\"Description\"\x7d")).calls = [] :=
  have w := createItem_title_required mockHandler mockDecodeTodoItem
    mockBinding.UpdateItemInput (mockContext 1 "1" "\x7b\"description\":\"Description\"\x7d")
    1 1 rfl (by decide) (by decide)
    (Or.inr ⟨{ Id := 0, Title := "", Description := "Description", Done := false },
      by rfl, by rfl⟩)
  ⟨w.1, w.2.2⟩

/-- C15: `getAllItems` returns an empty collection, not an error. When
`GetAll` returns a collection and no error, the handler answers status 200
with a body whose data field is exactly that collection, in the same
order; in particular the empty collection is answered as the empty
collection. -/
theorem getAllItems_data (h : Handler) (c : Context) (userId listId : Int)
    (hw : c.Writer = ResponseWriter.fresh)
    (huser : c.Get userCtx = some (Any.int userId))
    (hid : strconv.Atoi (c.Param "id") = some listId) :
    (∀ items, h.services.TodoItem.GetAll userId listId = .ok items →
      (getAllItems h c).Writer =
        { status := 200, written := true, body := [Body.getAllItemsResponse items] } ∧
      (getAllItems h c).aborted = c.aborted) ∧
    (h.services.TodoItem.GetAll userId listId = .ok (some []) →
      (getAllItems h c).Writer =
        { status := 200, written := true, body := [Body.getAllItemsResponse (some [])] }) := by
  have key : ∀ items, h.services.TodoItem.GetAll userId listId = .ok items →
      getAllItems h c =
        { c.call (service.Call.GetAll userId listId) with
          Writer :=
            { status := 200, written := true, body := [Body.getAllItemsResponse items] } } := by
    intro items hsvc
    simp only [getAllItems, getUserId_of_int c userId huser, hid, hsvc]
    rw [JSON_fresh _ _ _ (by simpa [Context.call] using hw) (by decide) (by decide)]
  refine ⟨fun items hsvc => ?_, fun hsvc => ?_⟩
  · rw [key items hsvc]
    exact ⟨rfl, rfl⟩
  · rw [key _ hsvc]

theorem getAllItems_data_witness :
    (getAllItems mockHandler (mockContext 1 "1" "")).Writer =
      { status := 200, written := true, body := [Body.getAllItemsResponse (some [])] } :=
  (getAllItems_data mockHandler (mockContext 1 "1" "") 1 1 rfl (by decide) (by decide)).2
    (by rfl)

/-- C16: in every item handler, a path parameter `id` that does not parse
as an integer yields status 400, with the message `Invalid list id` in
`createItem` and `getAllItems` and `Invalid item id` in `getItemById`,
`updateItem` and `deleteItem`, and the service is not called. -/
theorem item_handlers_invalid_id (h : Handler) (b : Binding) (c : Context) (userId : Int)
    (hw : c.Writer = ResponseWriter.fresh)
    (huser : c.Get userCtx = some (Any.int userId))
    (hid : strconv.Atoi (c.Param "id") = none) :
    ((createItem h b c).Writer =
        { status := 400, written := true, body := [Body.errorResponse "Invalid list id"] } ∧
      (createItem h b c).calls = c.calls) ∧
    ((getAllItems h c).Writer =
        { status := 400, written := true, body := [Body.errorResponse "Invalid list id"] } ∧
      (getAllItems h c).calls = c.calls) ∧
    ((getItemById h c).Writer =
        { status := 400, written := true, body := [Body.errorResponse "Invalid item id"] } ∧
      (getItemById h c).calls = c.calls) ∧
    ((updateItem h b c).Writer =
        { status := 400, written := true, body := [Body.errorResponse "Invalid item id"] } ∧
      (updateItem h b c).calls = c.calls) ∧
    ((deleteItem h c).Writer =
        { status := 400, written := true, body := [Body.errorResponse "Invalid item id"] } ∧
      (deleteItem h c).calls = c.calls) := by
  have hrej : ∀ m, newErrorResponse c http.StatusBadRequest m =
      { c with
        log := c.log ++ ["Error: " ++ m],
        aborted := true,
        Writer := { status := 400, written := true, body := [Body.errorResponse m] } } :=
    fun m => newErrorResponse_fresh _ _ _ hw (by decide) (by decide)
  refine ⟨?_, ?_, ?_, ?_, ?_⟩
  · simp [createItem, getUserId_of_int c userId huser, hid, hrej]
  · simp [getAllItems, getUserId_of_int c userId huser, hid, hrej]
  · simp [getItemById, getUserId_of_int c userId huser, hid, hrej]
  · simp [updateItem, getUserId_of_int c userId huser, hid, hrej]
  · simp [deleteItem, getUserId_of_int c userId huser, hid, hrej]

theorem item_handlers_invalid_id_witness :
    (createItem mockHandler mockBinding (mockContext 1 "asd" "")).Writer =
        { status := 400, written := true, body := [Body.errorResponse "Invalid list id"] } ∧
    (getItemById mockHandler (mockContext 1 "asd" "")).Writer =
        { status := 400, written := true, body := [Body.errorResponse "Invalid item id"] } ∧
    (getItemById mockHandler (mockContext 1 "asd" "")).calls = [] :=
  have w := item_handlers_invalid_id mockHandler mockBinding (mockContext 1 "asd" "") 1
    rfl (by decide) (by decide)
  ⟨w.1.1, w.2.2.1.1, w.2.2.1.2⟩

end handler

namespace handler

open gin

/-- C17: in every item handler, a service error that is not of a kind the
handler recognises (`ErrNoSuchList` for `createItem` and `getAllItems`,
`ErrNoSuchItem` for `getItemById`, `ErrNoSuchItem` and
`ErrInvalidUpdateItemInput` for `updateItem`, none for `deleteItem`)
yields status 500 with the text of the error as message. -/
theorem item_handlers_service_failure (h : Handler) (b : Binding) (c : Context)
    (userId id : Int) (err : todo.Error)
    (hw : c.Writer = ResponseWriter.fresh)
    (huser : c.Get userCtx = some (Any.int userId))
    (hid : strconv.Atoi (c.Param "id") = some id) :
    (∀ input, b.TodoItem c.Request.Body = .ok input →
      h.services.TodoItem.Create userId id input = .error err →
      err ≠ todo.Error.ErrNoSuchList →
      (createItem h b c).Writer =
        { status := 500, written := true, body := [Body.errorResponse err.Error] }) ∧
    (h.services.TodoItem.GetAll userId id = .error err →
      err ≠ todo.Error.ErrNoSuchList →
      (getAllItems h c).Writer =
        { status := 500, written := true, body := [Body.errorResponse err.Error] }) ∧
    (h.services.TodoItem.GetById userId id = .error err →
      err ≠ todo.Error.ErrNoSuchItem →
      (getItemById h c).Writer =
        { status := 500, written := true, body := [Body.errorResponse err.Error] }) ∧
    (∀ input, b.UpdateItemInput c.Request.Body = .ok input →
      h.services.TodoItem.Update userId id input = some err →
      err ≠ todo.Error.ErrNoSuchItem → err ≠ todo.Error.ErrInvalidUpdateItemInput →
      (updateItem h b c).Writer =
        { status := 500, written := true, body := [Body.errorResponse err.Error] }) ∧
    (h.services.TodoItem.Delete userId id = some err →
      (deleteItem h c).Writer =
        { status := 500, written := true, body := [Body.errorResponse err.Error] }) := by
  have hrej : ∀ (k : service.Call) (m : String),
      newErrorResponse (c.call k) http.StatusInternalServerError m =
      { c.call k with
        log := (c.call k).log ++ ["Error: " ++ m],
        aborted := true,
        Writer := { status := 500, written := true, body := [Body.errorResponse m] } } :=
    fun k m => newErrorResponse_fresh _ _ _ (by simpa [Context.call] using hw)
      (by decide) (by decide)
  refine ⟨?_, ?_, ?_, ?_, ?_⟩
  · intro input hbind hsvc hne
    cases err with
    | ErrNoSuchList => exact absurd rfl hne
    | _ => simp [createItem, getUserId_of_int c userId huser, hid, Context.BindJSON, hbind,
        hsvc, hrej]
  · intro hsvc hne
    cases err with
    | ErrNoSuchList => exact absurd rfl hne
    | _ => simp [getAllItems, getUserId_of_int c userId huser, hid, hsvc, hrej]
  · intro hsvc hne
    cases err with
    | ErrNoSuchItem => exact absurd rfl hne
    | _ => simp [getItemById, getUserId_of_int c userId huser, hid, hsvc, hrej]
  · intro input hbind hsvc hne hne2
    cases err with
    | ErrNoSuchItem => exact absurd rfl hne
    | ErrInvalidUpdateItemInput => exact absurd rfl hne2
    | _ => simp [updateItem, getUserId_of_int c userId huser, hid, Context.BindJSON, hbind,
        hsvc, hrej]
  · intro hsvc
    simp [deleteItem, getUserId_of_int c userId huser, hid, hsvc, hrej]

theorem item_handlers_service_failure_witness :
    (createItem failingHandler mockBinding
        (mockContext 1 "1" "\x7b\"title\":\"Other\"\x7d")).Writer =
      { status := 500, written := true, body := [Body.errorResponse "Service failure"] } ∧
    (updateItem failingHandler mockBinding
        (mockContext 1 "1" "\x7b\"title\":\"Test\"\x7d")).Writer =
      { status := 500, written := true, body := [Body.errorResponse "Service failure"] } :=
  ⟨(item_handlers_service_failure failingHandler mockBinding
      (mockContext 1 "1" "\x7b\"title\":\"Other\"\x7d") 1 1
      (todo.Error.errorString "Service failure") rfl (by decide) (by decide)).1
      { Id := 0, Title := "Other", Description := "", Done := false }
      (by rfl) (by rfl) (by decide),
    (item_handlers_service_failure failingHandler mockBinding
      (mockContext 1 "1" "\x7b\"title\":\"Test\"\x7d") 1 1
      (todo.Error.errorString "Service failure") rfl (by decide) (by decide)).2.2.2.1
      { Title := some "Test", Description := none, Done := none }
      (by rfl) (by decide) (by decide) (by decide)⟩

/-- C19: the code does not keep the title non-empty on update. `Validate`
accepts an input whose `Title` is present and is the empty string, and
`updateItem` hands that input to `Update` and answers success. -/
theorem UpdateItemInput_Validate_accepts_empty_title :
    todo.UpdateItemInput.Validate { Title := some "", Description := none, Done := none } =
      none ∧
    (updateItem mockHandler emptyTitleBinding
        (mockContext 1 "1" "\x7b\"title\":\"\"\x7d")).calls =
      [service.Call.Update 1 1 { Title := some "", Description := none, Done := none }] ∧
    (updateItem mockHandler emptyTitleBinding
        (mockContext 1 "1" "\x7b\"title\":\"\"\x7d")).Writer =
      { status := 200, written := true, body := [Body.statusResponse "ok"] } := by
  refine ⟨by decide, by decide, by decide⟩

/-- C20: `updateItem` does not itself reject an update that names no
field. For a valid item id and a body that binds to an input (for the
empty object: the input with all three fields absent) the handler calls
`Update` with that input, and it answers status 400 with the message
`Invalid item update input` exactly when `Update` returns
`ErrInvalidUpdateItemInput`. -/
theorem updateItem_delegates_validation (h : Handler) (b : Binding) (c : Context)
    (userId id : Int) (input : todo.UpdateItemInput)
    (hw : c.Writer = ResponseWriter.fresh)
    (huser : c.Get userCtx = some (Any.int userId))
    (hid : strconv.Atoi (c.Param "id") = some id)
    (hbind : b.UpdateItemInput c.Request.Body = .ok input) :
    (updateItem h b c).calls = c.calls ++ [service.Call.Update userId id input] ∧
    ((updateItem h b c).Writer =
        { status := 400, written := true,
          body := [Body.errorResponse "Invalid item update input"] } ↔
      h.services.TodoItem.Update userId id input =
        some todo.Error.ErrInvalidUpdateItemInput) := by
  have hrej : ∀ (code : Nat) (m : String), bodyAllowedForStatus code = true → 0 < code →
      newErrorResponse (c.call (service.Call.Update userId id input)) code m =
      { c.call (service.Call.Update userId id input) with
        log := (c.call (service.Call.Update userId id input)).log ++ ["Error: " ++ m],
        aborted := true,
        Writer := { status := code, written := true, body := [Body.errorResponse m] } } :=
    fun code m h1 h2 => newErrorResponse_fresh _ _ _ (by simpa [Context.call] using hw) h1 h2
  cases hsvc : h.services.TodoItem.Update userId id input with
  | none =>
    simp only [updateItem, getUserId_of_int c userId huser, hid, Context.BindJSON, hbind, hsvc]
    rw [JSON_fresh _ _ _ (by simpa [Context.call] using hw) (by decide) (by decide)]
    simp [Context.call]
  | some err =>
    cases err with
    | errorString s =>
      simp only [updateItem, getUserId_of_int c userId huser, hid, Context.BindJSON, hbind,
        hsvc]
      rw [hrej _ _ (by decide) (by decide)]
      simp [Context.call]
    | _ =>
      simp only [updateItem, getUserId_of_int c userId huser, hid, Context.BindJSON, hbind,
        hsvc]
      rw [hrej _ _ (by decide) (by decide)]
      simp [Context.call, todo.Error.Error]

theorem updateItem_delegates_validation_witness :
    (updateItem mockHandler mockBinding (mockContext 1 "1" "\x7b\x7d")).calls =
      [service.Call.Update 1 1 { Title := none, Description := none, Done := none }] ∧
    (updateItem mockHandler mockBinding (mockContext 1 "1" "\x7b\x7d")).Writer =
      { status := 400, written := true,
        body := [Body.errorResponse "Invalid item update input"] } :=
  have w := updateItem_delegates_validation mockHandler mockBinding
    (mockContext 1 "1" "\x7b\x7d") 1 1 { Title := none, Description := none, Done := none }
    rfl (by decide) (by decide) (by rfl)
  ⟨w.1, w.2.2 (by decide)⟩

end handler

/-! ## Token round trip -/

namespace service

/-- With unique usernames the lookup by username finds the stored user. -/
theorem FindUserByUsername_of_mem (store : List StoredUser) (u : StoredUser)
    (hmem : u ∈ store)
    (huniq : store.Pairwise (fun a b => a.username ≠ b.username)) :
    FindUserByUsername store u.username = some u := by
  unfold FindUserByUsername
  induction store with
  | nil => simp at hmem
  | cons a l ih =>
    rw [List.pairwise_cons] at huniq
    by_cases ha : a.username = u.username
    · rcases List.mem_cons.1 hmem with rfl | hl
      · simp [List.find?]
      · exact absurd ha (huniq.1 u hl)
    · rcases List.mem_cons.1 hmem with rfl | hl
      · exact absurd rfl ha
      · simp only [List.find?, ha, decide_False]
        exact ih hl huniq.2

/-- C18: token round trip. For every stored user and every username and
password matching it, issuing a token succeeds, and verifying that token
at any time before its expiry returns the id of that user and no error. -/
theorem token_round_trip (cfg : TokenConfig) (store : List StoredUser) (now : Nat)
    (username password : String) (u : StoredUser)
    (hmem : u ∈ store)
    (huniq : store.Pairwise (fun a b => a.username ≠ b.username))
    (hname : u.username = username)
    (hpw : u.passwordHash = cfg.hash cfg.salt password) :
    ∃ token, IssueToken cfg store now username password = .ok token ∧
      token.expires_at = now + cfg.duration ∧
      ∀ later, later < token.expires_at → VerifyToken cfg later token = .ok u.id := by
  have hfind := FindUserByUsername_of_mem store u hmem huniq
  rw [hname] at hfind
  refine ⟨{ user_id := u.id, issued_at := now, expires_at := now + cfg.duration,
            signature := cfg.sign cfg.secret u.id now (now + cfg.duration) }, ?_, rfl, ?_⟩
  · simp [IssueToken, hfind, hpw]
  · intro later hlater
    have hnot : ¬ (now + cfg.duration < later) := by
      simp only [] at hlater
      omega
    simp [VerifyToken, hnot]

theorem token_round_trip_witness :
    ∃ token, IssueToken mockTokenConfig mockStore 100 "test" "qwerty" = .ok token ∧
      token.expires_at = 100 + mockTokenConfig.duration ∧
      ∀ later, later < token.expires_at →
        VerifyToken mockTokenConfig later token = .ok 1 :=
  token_round_trip mockTokenConfig mockStore 100 "test" "qwerty"
    { id := 1, username := "test", passwordHash := "saltqwerty" }
    (by decide) (by simp [mockStore]) (by rfl) (by decide)

end service

/-! ## Calls of the middleware and handlers without a user id -/

namespace handler

open gin

/-- `Bearer t` determines the token `t`. -/
theorem bearer_append_inj (t u : String) (h : "Bearer " ++ t = "Bearer " ++ u) : t = u := by
  have hd := congrArg String.data h
  simp only [String.data_append] at hd
  exact String.ext (List.append_cancel_left hd)

/-- C21: `userIdentity` calls `ParseToken` exactly when the header is
`Bearer`, one space, and a token `t` that is non-empty and has no space,
and the argument of the call is then `t`; the two index operations on the
split header never go out of range, and at most one call is made, never
with the empty string or a string containing a space. -/
theorem userIdentity_ParseToken_iff (h : Handler) (c : Context) :
    (∀ t, (userIdentity h c).calls = c.calls ++ [service.Call.ParseToken t] ↔
      (c.GetHeader authHeader = "Bearer " ++ t ∧ t ≠ "" ∧ ' ' ∉ t.data)) ∧
    ((userIdentity h c).calls = c.calls ∨
      ∃ t, t ≠ "" ∧ ' ' ∉ t.data ∧
        (userIdentity h c).calls = c.calls ++ [service.Call.ParseToken t]) ∧
    (userIdentity h c).panicked = c.panicked := by
  have hrejc : ∀ m, (newErrorResponse c http.StatusUnauthorized m).calls = c.calls :=
    fun m => newErrorResponse_calls _ _ _
  have hrejp : ∀ (k : Context) (m : String),
      (newErrorResponse k http.StatusUnauthorized m).panicked = k.panicked := by
    intro k m
    simp only [newErrorResponse, Context.AbortWithStatusJSON, Context.JSON, Context.Abort]
    split <;> rfl
  have hnil : ∀ t, c.calls ≠ c.calls ++ [service.Call.ParseToken t] := by
    intro t heq
    have := congrArg List.length heq
    simp at this
  have hpass : ∀ t, ' ' ∉ t.data → t ≠ "" → c.GetHeader authHeader = "Bearer " ++ t →
      (userIdentity h c).calls = c.calls ++ [service.Call.ParseToken t] ∧
      (userIdentity h c).panicked = c.panicked := by
    intro t hsp hne hhead
    rw [userIdentity_eq, hhead, Split_bearer t hsp]
    simp only [bearer_append_ne_empty, if_false, ne_eq, not_true_eq_false, hne]
    cases hp : h.services.Authorization.ParseToken t with
    | error e =>
      simp only []
      exact ⟨by rw [newErrorResponse_calls]; rfl, by rw [hrejp]; rfl⟩
    | ok id => exact ⟨rfl, rfl⟩
  have hrej : (∀ t, ¬(c.GetHeader authHeader = "Bearer " ++ t ∧ t ≠ "" ∧ ' ' ∉ t.data)) →
      (userIdentity h c).calls = c.calls ∧ (userIdentity h c).panicked = c.panicked := by
    intro hno
    rw [userIdentity_eq]
    by_cases hh : c.GetHeader authHeader = ""
    · rw [if_pos hh]
      exact ⟨hrejc _, hrejp _ _⟩
    · rw [if_neg hh]
      rcases hs : strings.Split (c.GetHeader authHeader) ' ' with _ | ⟨a, _ | ⟨b, _ | ⟨d, l⟩⟩⟩
      · exact ⟨hrejc _, hrejp _ _⟩
      · exact ⟨hrejc _, hrejp _ _⟩
      · by_cases ha : a = "Bearer"
        · by_cases hb : b = ""
          · simp only [ha, hb, ne_eq, not_true_eq_false, if_false, if_true]
            exact ⟨hrejc _, hrejp _ _⟩
          · subst ha
            obtain ⟨hhead, _, hsp⟩ := (strings.Split_eq_pair _ _ _ _).1 hs
            have hhead2 : c.GetHeader authHeader = "Bearer " ++ b := by
              rw [hhead]
              apply String.ext
              simp [String.singleton]
            exact absurd ⟨hhead2, hb, hsp⟩ (hno b)
        · simp only [ne_eq, ha, not_false_eq_true, if_true]
          exact ⟨hrejc _, hrejp _ _⟩
      · exact ⟨hrejc _, hrejp _ _⟩
  by_cases hex : ∃ t, c.GetHeader authHeader = "Bearer " ++ t ∧ t ≠ "" ∧ ' ' ∉ t.data
  · obtain ⟨t, hhead, hne, hsp⟩ := hex
    obtain ⟨hcalls, hpan⟩ := hpass t hsp hne hhead
    refine ⟨fun u => ⟨fun hu => ?_, fun hu => ?_⟩, Or.inr ⟨t, hne, hsp, hcalls⟩, hpan⟩
    · rw [hcalls] at hu
      have htu : t = u := by simpa using hu
      subst htu
      exact ⟨hhead, hne, hsp⟩
    · have htu : t = u := bearer_append_inj t u (hhead.symm.trans hu.1)
      subst htu
      exact hcalls
  · have hno : ∀ t, ¬(c.GetHeader authHeader = "Bearer " ++ t ∧ t ≠ "" ∧ ' ' ∉ t.data) :=
      fun t ht => hex ⟨t, ht⟩
    obtain ⟨hcalls, hpan⟩ := hrej hno
    refine ⟨fun u => ⟨fun hu => ?_, fun hu => absurd hu (hno u)⟩, Or.inl hcalls, hpan⟩
    rw [hcalls] at hu
    exact absurd hu (hnil u)

theorem userIdentity_ParseToken_iff_witness :
    (userIdentity mockHandler (Context.new (mockRequest "Bearer token" "") [])).calls =
      [service.Call.ParseToken "token"] ∧
    (mockRequest "Bearer a b" "").Header.lookup authHeader = some ["Bearer a b"] ∧
    ¬((userIdentity mockHandler (Context.new (mockRequest "Bearer a b" "") [])).calls =
      [service.Call.ParseToken "a b"]) :=
  ⟨((userIdentity_ParseToken_iff mockHandler
      (Context.new (mockRequest "Bearer token" "") [])).1 "token").2
      ⟨by decide, by decide, by decide⟩,
    by decide,
    fun hcall =>
      (((userIdentity_ParseToken_iff mockHandler
        (Context.new (mockRequest "Bearer a b" "") [])).1 "a b").1 hcall).2.2 (by decide)⟩

end handler

namespace handler

open gin

/-- `getUserId` on a context without a `userId` value. -/
theorem getUserId_of_none (c : Context) (hw : c.Writer = ResponseWriter.fresh)
    (huser : c.Get userCtx = none) :
    (getUserId c).1 =
      { c with
        log := c.log ++ ["Error: " ++ "User id not found"],
        aborted := true,
        Writer := { status := 500, written := true,
                    body := [Body.errorResponse "User id not found"] } } ∧
    (getUserId c).2 = .error (todo.Error.errorString "User id not found") := by
  simp only [getUserId, huser]
  rw [newErrorResponse_fresh _ _ _ hw (by decide) (by decide)]
  simp

/-- `getUserId` on a context whose `userId` value is not an int. -/
theorem getUserId_of_not_int (c : Context) (v : Any) (hw : c.Writer = ResponseWriter.fresh)
    (huser : c.Get userCtx = some v) (hv : ∀ n, v ≠ Any.int n) :
    (getUserId c).1 =
      { c with
        log := c.log ++ ["Error: " ++ "Invalid user id type"],
        aborted := true,
        Writer := { status := 500, written := true,
                    body := [Body.errorResponse "Invalid user id type"] } } ∧
    (getUserId c).2 = .error (todo.Error.errorString "Invalid user id type") := by
  cases v with
  | int n => exact absurd rfl (hv n)
  | string s =>
    simp only [getUserId, huser]
    rw [newErrorResponse_fresh _ _ _ hw (by decide) (by decide)]
    simp
  | bool b =>
    simp only [getUserId, huser]
    rw [newErrorResponse_fresh _ _ _ hw (by decide) (by decide)]
    simp

/-- When `getUserId` fails, every item handler returns the context that
`getUserId` left. -/
theorem item_handlers_of_getUserId_error (h : Handler) (b : Binding) (c : Context)
    (e : todo.Error) (herr : (getUserId c).2 = .error e) :
    createItem h b c = (getUserId c).1 ∧ getAllItems h c = (getUserId c).1 ∧
    getItemById h c = (getUserId c).1 ∧ updateItem h b c = (getUserId c).1 ∧
    deleteItem h c = (getUserId c).1 := by
  rcases hg : getUserId c with ⟨k, r⟩
  rw [hg] at herr
  simp only [] at herr
  subst herr
  simp [createItem, getAllItems, getItemById, updateItem, deleteItem, hg]

/-- C22: the item handlers fail closed without an authenticated user id.
In each of `createItem`, `getAllItems`, `getItemById`, `updateItem` and
`deleteItem`, a context without a `userId` value is answered with status
500 and the message `User id not found`, and a context whose `userId`
value is not an int with status 500 and the message
`Invalid user id type`; in both cases no service method is called and that
response is the only one written. -/
theorem item_handlers_fail_closed (h : Handler) (b : Binding) (c : Context)
    (hw : c.Writer = ResponseWriter.fresh) :
    (c.Get userCtx = none →
      ∀ k ∈ [createItem h b c, getAllItems h c, getItemById h c, updateItem h b c,
          deleteItem h c],
        k.Writer = { status := 500, written := true,
                     body := [Body.errorResponse "User id not found"] } ∧
        k.aborted = true ∧ k.calls = c.calls) ∧
    (∀ v, c.Get userCtx = some v → (∀ n, v ≠ Any.int n) →
      ∀ k ∈ [createItem h b c, getAllItems h c, getItemById h c, updateItem h b c,
          deleteItem h c],
        k.Writer = { status := 500, written := true,
                     body := [Body.errorResponse "Invalid user id type"] } ∧
        k.aborted = true ∧ k.calls = c.calls) := by
  constructor
  · intro huser k hk
    obtain ⟨h1, h2⟩ := getUserId_of_none c hw huser
    obtain ⟨e1, e2, e3, e4, e5⟩ := item_handlers_of_getUserId_error h b c _ h2
    simp only [List.mem_cons, List.mem_singleton, List.not_mem_nil, or_false] at hk
    rcases hk with rfl | rfl | rfl | rfl | rfl
    · rw [e1, h1]; exact ⟨rfl, rfl, rfl⟩
    · rw [e2, h1]; exact ⟨rfl, rfl, rfl⟩
    · rw [e3, h1]; exact ⟨rfl, rfl, rfl⟩
    · rw [e4, h1]; exact ⟨rfl, rfl, rfl⟩
    · rw [e5, h1]; exact ⟨rfl, rfl, rfl⟩
  · intro v huser hv k hk
    obtain ⟨h1, h2⟩ := getUserId_of_not_int c v hw huser hv
    obtain ⟨e1, e2, e3, e4, e5⟩ := item_handlers_of_getUserId_error h b c _ h2
    simp only [List.mem_cons, List.mem_singleton, List.not_mem_nil, or_false] at hk
    rcases hk with rfl | rfl | rfl | rfl | rfl
    · rw [e1, h1]; exact ⟨rfl, rfl, rfl⟩
    · rw [e2, h1]; exact ⟨rfl, rfl, rfl⟩
    · rw [e3, h1]; exact ⟨rfl, rfl, rfl⟩
    · rw [e4, h1]; exact ⟨rfl, rfl, rfl⟩
    · rw [e5, h1]; exact ⟨rfl, rfl, rfl⟩

theorem item_handlers_fail_closed_witness :
    ((deleteItem mockHandler (Context.new { Header := [], Body := "" } [("id", "1")])).Writer =
        { status := 500, written := true,
          body := [Body.errorResponse "User id not found"] } ∧
      (deleteItem mockHandler (Context.new { Header := [], Body := "" } [("id", "1")])).calls
        = []) ∧
    ((createItem mockHandler mockBinding
        ((Context.new { Header := [], Body := "" } [("id", "1")]).Set userCtx
          (Any.string "1"))).Writer =
        { status := 500, written := true,
          body := [Body.errorResponse "Invalid user id type"] } ∧
      (createItem mockHandler mockBinding
        ((Context.new { Header := [], Body := "" } [("id", "1")]).Set userCtx
          (Any.string "1"))).calls = []) :=
  have w1 := (item_handlers_fail_closed mockHandler mockBinding
    (Context.new { Header := [], Body := "" } [("id", "1")]) rfl).1 (by decide)
    (deleteItem mockHandler (Context.new { Header := [], Body := "" } [("id", "1")]))
    (by simp)
  have w2 := (item_handlers_fail_closed mockHandler mockBinding
    ((Context.new { Header := [], Body := "" } [("id", "1")]).Set userCtx (Any.string "1"))
    rfl).2 (Any.string "1") (by decide) (fun n hn => by cases hn)
    (createItem mockHandler mockBinding
      ((Context.new { Header := [], Body := "" } [("id", "1")]).Set userCtx (Any.string "1")))
    (by simp)
  ⟨⟨w1.1, w1.2.2⟩, ⟨w2.1, w2.2.2⟩⟩

end handler
